import Mathlib

/-!
# The time-series example driver (`examples/time_series/main.cpp`)

The driver is glue code over the OpenNN library: `RunSeries` sequences the
library calls for one named series and `main` runs it for three series inside
one `try`/`catch`.  The library itself is outside the source tree, so every
library call appears here as an event of a trace, and what the library answers
(return values, and whether a call throws) is a parameter `Library`.

Values of C++ type `double` are opaque to the driver; they are an arbitrary
type `V`.
-/

namespace TimeSeries

/-! ## Data model -/

/-- What can be thrown out of a library call.  `main` catches `exception&`
only, so the two kinds behave differently there. -/
inductive Exn where
  /-- An exception whose class derives from `std::exception`; `what` is the
  text returned by `e.what()`. -/
  | std (what : String)
  /-- Any other thrown object. -/
  | other
  deriving DecidableEq, Repr

/-- The class `OpenNN::Descriptives`: summary statistics of one column (spec 3:
minimum, maximum, mean, standard deviation). -/
structure Descriptives (V : Type) where
  minimum : V
  maximum : V
  mean : V
  standard_deviation : V
  deriving DecidableEq, Repr

/-- The enumeration `ScalingLayer::ScalingMethod`; the driver names
`NoScaling`, the other two methods are those of the spec (4.4). -/
inductive ScalingMethod where
  | NoScaling
  | MinimumMaximum
  | MeanStandardDeviation
  deriving DecidableEq, Repr

/-- The enumeration `UnscalingLayer::UnscalingMethod`; the driver names
`NoUnscaling`, the other two methods are those of the spec (4.4). -/
inductive UnscalingMethod where
  | NoUnscaling
  | MinimumMaximum
  | MeanStandardDeviation
  deriving DecidableEq, Repr

/-- First argument of the `NeuralNetwork` constructor. -/
inductive ProjectType where
  | Approximation
  | Classification
  | Forecasting
  deriving DecidableEq, Repr

/-- The part of `OpenNN::ScalingLayer` the driver configures. -/
structure ScalingLayer (V : Type) where
  descriptives : List (Descriptives V)
  scaling_methods : ScalingMethod
  deriving DecidableEq, Repr

/-- The part of `OpenNN::UnscalingLayer` the driver configures. -/
structure UnscalingLayer (V : Type) where
  descriptives : List (Descriptives V)
  unscaling_method : UnscalingMethod
  deriving DecidableEq, Repr

/-- The part of `OpenNN::NeuralNetwork` the driver can observe: the layout it
was constructed with, the two layers it reaches through
`get_scaling_layer_pointer` / `get_unscaling_layer_pointer`, the number of
time steps of the long short-term memory layer, and the trainable
parameters. -/
structure NeuralNetwork (V : Type) where
  architecture : List Nat
  scaling_layer : ScalingLayer V
  unscaling_layer : UnscalingLayer V
  timesteps : Nat
  parameters : List V
  deriving DecidableEq, Repr

/-- The class `TestingAnalysis::LinearRegressionAnalysis`: one record per target
variable. -/
structure LinearRegressionAnalysis (V : Type) where
  correlation : V
  intercept : V
  slope : V
  targets : List V
  outputs : List V
  deriving DecidableEq, Repr

/-- The class `OptimizationAlgorithm::Results` as far as the driver is concerned: the
parameters the training ends with and the two histories it asked to keep. -/
structure Results (V : Type) where
  final_parameters : List V
  training_error_history : List V
  selection_error_history : List V
  deriving DecidableEq, Repr

/-- What a `save` call hands to the file system.  The data set and the
training strategy are opaque objects of the library. -/
inductive Saved (V : Type) where
  | DataSet
  | NeuralNetwork (nn : NeuralNetwork V)
  | Expression (nn : NeuralNetwork V)
  | TrainingStrategy
  | Results (r : Results V)
  | Vector (v : List V)
  | VectorOfVectors (v : List (List V))
  | VectorOfMatrices (v : List (List (List V)))
  deriving DecidableEq, Repr

/-- The library calls `RunSeries` makes, with the arguments it passes.  A call
through a pointer to the network (`perform_training`, the `TestingAnalysis`
constructor) carries the network in its state at the moment of the call. -/
inductive Call (V : Type) where
  | DataSet (data_file_name : String) (separator : Char) (has_columns_names : Bool)
  | calculate_columns_histograms
  | set_lags_number (n : Nat)
  | set_steps_ahead_number (n : Nat)
  | set_time_index (n : Nat)
  | transform_time_series
  | impute_missing_values_mean
  | split_instances_sequential
  | scale_inputs_minimum_maximum
  | scale_targets_minimum_maximum
  | get_input_variables_number
  | get_target_variables_number
  | NeuralNetwork (type : ProjectType) (architecture : List Nat)
  | get_scaling_layer_pointer
  | ScalingLayer_set_descriptives (d : List (Descriptives V))
  | ScalingLayer_set_scaling_methods (m : ScalingMethod)
  | get_unscaling_layer_pointer
  | UnscalingLayer_set_descriptives (d : List (Descriptives V))
  | UnscalingLayer_set_unscaling_method (m : UnscalingMethod)
  | get_long_short_term_memory_layer_pointer
  | set_timesteps (n : Nat)
  | TrainingStrategy
  | get_quasi_Newton_method_pointer
  | set_maximum_epochs_number (n : Nat)
  | set_maximum_time (seconds : Int)
  | set_display_period (n : Nat)
  | set_minimum_loss_decrease (d : Int)
  | set_reserve_training_error_history (b : Bool)
  | set_reserve_selection_error_history (b : Bool)
  | perform_training (nn : NeuralNetwork V)
  | TestingAnalysis (nn : NeuralNetwork V)
  | perform_linear_regression_analysis
  | calculate_error_autocorrelation
  | calculate_inputs_errors_cross_correlation
  | calculate_error_data
  | calculate_error_data_statistics
  | save (content : Saved V) (file_name : String)
  deriving DecidableEq, Repr

/-- What an observer of the process sees, in order: a line on `cout`, a line
on `cerr`, a library call being made, and control entering and leaving
`RunSeries`. -/
inductive Event (V : Type) where
  | enter (NameOfSeries : String)
  | leave (NameOfSeries : String)
  | cout (line : String)
  | cerr (line : String)
  | call (c : Call V)
  deriving DecidableEq, Repr

/-- The observable state of the process: the events so far (oldest first) and
the files completely written so far (oldest first). -/
structure World (V : Type) where
  trace : List (Event V)
  files : List (String × Saved V)
  deriving DecidableEq, Repr

/-- The world before `main` starts. -/
def World.init {V : Type} : World V := ⟨[], []⟩

/-- The answers of the library during one run of `RunSeries`: which call
throws what (no answer means the call returns), and what the value-returning
calls return.  Every value-returning call is made once per run, and the calls
of one run are pairwise different (`calls_nodup`), so this covers every
deterministic library. -/
structure Library (V : Type) where
  throws : Call V → Option Exn
  scale_inputs_minimum_maximum : List (Descriptives V)
  scale_targets_minimum_maximum : List (Descriptives V)
  get_input_variables_number : Nat
  get_target_variables_number : Nat
  NeuralNetwork : ProjectType → List Nat → NeuralNetwork V
  perform_training : Results V
  perform_linear_regression_analysis : List (LinearRegressionAnalysis V)
  calculate_error_autocorrelation : List (List V)
  calculate_inputs_errors_cross_correlation : List (List V)
  calculate_error_data : List (List (List V))

/-! ## Programs -/

/-- A C++ computation that may throw: it maps the world to a result or a
thrown exception, and the world it leaves behind. -/
def Prog (V : Type) (α : Type) : Type := World V → Except Exn α × World V

/-- Sequencing: when the first computation throws, the second is skipped. -/
def Prog.bind {V α β : Type} (m : Prog V α) (f : α → Prog V β) : Prog V β :=
  fun w =>
    match m w with
    | (.ok a, w') => f a w'
    | (.error e, w') => (.error e, w')

instance {V : Type} : Monad (Prog V) where
  pure a := fun w => (.ok a, w)
  bind := Prog.bind

/-- Append one event to the trace. -/
def emit {V : Type} (e : Event V) : Prog V Unit :=
  fun w => (.ok (), { w with trace := w.trace ++ [e] })

/-- What a returned call leaves in the file system: `save` writes its file,
no other call writes any. -/
def Call.written {V : Type} : Call V → List (String × Saved V)
  | .save content file_name => [(file_name, content)]
  | _ => []

/-- A library call that returns `ret` unless the library throws.  The call is
recorded in the trace in both cases; its file is written only when it
returns. -/
def callR {V α : Type} (lib : Library V) (c : Call V) (ret : α) : Prog V α :=
  fun w =>
    match lib.throws c with
    | some e => (.error e, { w with trace := w.trace ++ [.call c] })
    | none => (.ok ret, { trace := w.trace ++ [.call c], files := w.files ++ c.written })

/-- A library call whose result is not used. -/
def call {V : Type} (lib : Library V) (c : Call V) : Prog V Unit :=
  callR lib c ()

/-! ## The library classes the driver configures

The classes of the library are not in the source tree.  The driver reaches
the layers of the network through pointers and calls setters on them. -/

/-- Modelled from the spec: `ScalingLayer::set_descriptives`, which is not in
the source tree, on the scaling layer of the network.  The layer records the
descriptives it is given (spec 4.4). -/
def NeuralNetwork.ScalingLayer_set_descriptives {V : Type} (nn : NeuralNetwork V)
    (d : List (Descriptives V)) : NeuralNetwork V :=
  { nn with scaling_layer := { nn.scaling_layer with descriptives := d } }

/-- Modelled from the spec: `ScalingLayer::set_scaling_methods`, which is not
in the source tree, on the scaling layer of the network.  The layer records
the method, one of MinMax, MeanStd and None (spec 4.4). -/
def NeuralNetwork.ScalingLayer_set_scaling_methods {V : Type} (nn : NeuralNetwork V)
    (m : ScalingMethod) : NeuralNetwork V :=
  { nn with scaling_layer := { nn.scaling_layer with scaling_methods := m } }

/-- Modelled from the spec: `UnscalingLayer::set_descriptives`, which is not
in the source tree, on the unscaling layer of the network.  The layer records
the descriptives it is given (spec 4.4). -/
def NeuralNetwork.UnscalingLayer_set_descriptives {V : Type} (nn : NeuralNetwork V)
    (d : List (Descriptives V)) : NeuralNetwork V :=
  { nn with unscaling_layer := { nn.unscaling_layer with descriptives := d } }

/-- Modelled from the spec: `UnscalingLayer::set_unscaling_method`, which is
not in the source tree, on the unscaling layer of the network.  The layer
records the method, one of MinMax, MeanStd and None (spec 4.4). -/
def NeuralNetwork.UnscalingLayer_set_unscaling_method {V : Type} (nn : NeuralNetwork V)
    (m : UnscalingMethod) : NeuralNetwork V :=
  { nn with unscaling_layer := { nn.unscaling_layer with unscaling_method := m } }

/-- Modelled from the spec: `LongShortTermMemoryLayer::set_timesteps`, which
is not in the source tree, on the recurrent layer of the network, a
substructure the model owns (spec 9). -/
def NeuralNetwork.set_timesteps {V : Type} (nn : NeuralNetwork V) (n : Nat) :
    NeuralNetwork V :=
  { nn with timesteps := n }

/-- Modelled from the spec: the training loop is not in the source tree; the
spec (4.5) says its output is the final parameters installed into the model,
so training replaces the parameters and nothing else. -/
def NeuralNetwork.install {V : Type} (nn : NeuralNetwork V) (r : Results V) :
    NeuralNetwork V :=
  { nn with parameters := r.final_parameters }

/-- Modelled from the spec: the inverse of the scaling of one value, which is
not in the source tree.  The spec (4.4) has MinMax map `[min, max]` onto
`[-1, 1]`, MeanStd map to zero mean and unit deviation, the reverse be the
exact algebraic inverse, and None leave the value unchanged. -/
def unscale {V : Type} [Field V] (m : UnscalingMethod) (d : Descriptives V) (y : V) : V :=
  match m with
  | .NoUnscaling => y
  | .MinimumMaximum => (y + 1) / 2 * (d.maximum - d.minimum) + d.minimum
  | .MeanStandardDeviation => y * d.standard_deviation + d.mean

/-- Modelled from the spec: the scaling of one value (spec 4.4), which is not
in the source tree. -/
def scale {V : Type} [Field V] (m : ScalingMethod) (d : Descriptives V) (x : V) : V :=
  match m with
  | .NoScaling => x
  | .MinimumMaximum => 2 * (x - d.minimum) / (d.maximum - d.minimum) - 1
  | .MeanStandardDeviation => (x - d.mean) / d.standard_deviation

/-- Modelled from the spec: what the unscaling layer does to a row of network
outputs, which is not in the source tree.  With no unscaling the row is left
unchanged (spec 4.4: None leaves values unchanged but still records
Descriptives); otherwise each output is unscaled with the descriptives
record of its column. -/
def UnscalingLayer.calculate_outputs {V : Type} [Field V] (l : UnscalingLayer V)
    (outputs : List V) : List V :=
  match l.unscaling_method with
  | .NoUnscaling => outputs
  | m => List.zipWith (unscale m) l.descriptives outputs

/-- Modelled from the spec: what the scaling layer does to a row of network
inputs, which is not in the source tree.  With no scaling the row is left
unchanged; otherwise each input is scaled with the descriptives record of its
column. -/
def ScalingLayer.calculate_outputs {V : Type} [Field V] (l : ScalingLayer V)
    (inputs : List V) : List V :=
  match l.scaling_methods with
  | .NoScaling => inputs
  | m => List.zipWith (scale m) l.descriptives inputs

/-! ## The driver -/

/-- The `for` loop of `RunSeries` (source lines 101-114) over the records of
`LinearAnalysisVector`, from index `LinearAnalysisIndex` on: the second
argument is the part of the vector from that index to its end, so its head is
`LinearAnalysisVector[LinearAnalysisIndex]`.  `std::to_string` of an unsigned
index is its decimal representation, `Nat.repr`. -/
def RunSeries.loop {V : Type} (lib : Library V) (OutputDirectory : String) :
    Nat → List (LinearRegressionAnalysis V) → Prog V Unit
  | _, [] => pure ()
  | LinearAnalysisIndex, LinearAnalysis :: rest => do
    let Out : List V := []
    let Out := Out ++ [LinearAnalysis.correlation]
    let Out := Out ++ [LinearAnalysis.intercept]
    let Out := Out ++ [LinearAnalysis.slope]
    let DataPath := OutputDirectory ++ "LinearAnalysis_" ++ Nat.repr LinearAnalysisIndex ++ "Data.dat"
    call lib (.save (.Vector Out) DataPath)
    let TargetsPath := OutputDirectory ++ "LinearAnalysis_" ++ Nat.repr LinearAnalysisIndex ++ "Targets.dat"
    call lib (.save (.Vector LinearAnalysis.targets) TargetsPath)
    let OutputPath := OutputDirectory ++ "LinearAnalysis_" ++ Nat.repr LinearAnalysisIndex ++ "Outputs.dat"
    call lib (.save (.Vector LinearAnalysis.outputs) OutputPath)
    RunSeries.loop lib OutputDirectory (LinearAnalysisIndex + 1) rest

/-- The function `void RunSeries(std::string NameOfSeries)`, statement by statement.  The
`enter` and `leave` events mark the invocation and the normal return; the
seeding of `rand` has no observable effect here and is left out. -/
def RunSeries {V : Type} (lib : Library V) (NameOfSeries : String) : Prog V Unit := do
  emit (.enter NameOfSeries)
  let DataPath := "../data"
  emit (.cout ("OpenNN. " ++ NameOfSeries ++ " Example."))
  -- Data Set
  call lib (.DataSet (DataPath ++ "/" ++ NameOfSeries ++ ".csv") ',' false)
  call lib .calculate_columns_histograms
  emit (.cout "Converting to time series")
  call lib (.set_lags_number 1)
  call lib (.set_steps_ahead_number 1)
  call lib (.set_time_index 0)
  call lib .transform_time_series
  -- Missing Values
  call lib .impute_missing_values_mean
  -- Instances
  call lib .split_instances_sequential
  let inputs_descriptives ← callR lib .scale_inputs_minimum_maximum lib.scale_inputs_minimum_maximum
  let targets_descriptives ← callR lib .scale_targets_minimum_maximum lib.scale_targets_minimum_maximum
  emit (.cout "Neural Network")
  let inputs_number ← callR lib .get_input_variables_number lib.get_input_variables_number
  let hidden_perceptrons_number := 6
  let outputs_number ← callR lib .get_target_variables_number lib.get_target_variables_number
  let NeuralNetwork ← callR lib
    (.NeuralNetwork .Forecasting [inputs_number, hidden_perceptrons_number, outputs_number])
    (lib.NeuralNetwork .Forecasting [inputs_number, hidden_perceptrons_number, outputs_number])
  -- Setup layers
  call lib .get_scaling_layer_pointer
  let NeuralNetwork ← callR lib (.ScalingLayer_set_descriptives inputs_descriptives)
    (NeuralNetwork.ScalingLayer_set_descriptives inputs_descriptives)
  let NeuralNetwork ← callR lib (.ScalingLayer_set_scaling_methods .NoScaling)
    (NeuralNetwork.ScalingLayer_set_scaling_methods .NoScaling)
  call lib .get_unscaling_layer_pointer
  let NeuralNetwork ← callR lib (.UnscalingLayer_set_descriptives targets_descriptives)
    (NeuralNetwork.UnscalingLayer_set_descriptives targets_descriptives)
  let NeuralNetwork ← callR lib (.UnscalingLayer_set_unscaling_method .NoUnscaling)
    (NeuralNetwork.UnscalingLayer_set_unscaling_method .NoUnscaling)
  call lib .get_long_short_term_memory_layer_pointer
  let NeuralNetwork ← callR lib (.set_timesteps 4) (NeuralNetwork.set_timesteps 4)
  -- Training strategy
  call lib .TrainingStrategy
  call lib .get_quasi_Newton_method_pointer
  call lib (.set_maximum_epochs_number 10000)
  call lib (.set_maximum_time 250)
  call lib (.set_display_period 10)
  call lib (.set_minimum_loss_decrease 0)
  call lib (.set_reserve_training_error_history true)
  call lib (.set_reserve_selection_error_history true)
  -- Perform Training
  let TrainingResults ← callR lib (.perform_training NeuralNetwork) lib.perform_training
  let NeuralNetwork := NeuralNetwork.install TrainingResults
  -- Testing Analysis
  emit (.cout "Testing Analysis")
  call lib (.TestingAnalysis NeuralNetwork)
  let LinearAnalysisVector ← callR lib .perform_linear_regression_analysis
    lib.perform_linear_regression_analysis
  let ErrorAutocorrelation ← callR lib .calculate_error_autocorrelation
    lib.calculate_error_autocorrelation
  let ErrorCorsscorrelation ← callR lib .calculate_inputs_errors_cross_correlation
    lib.calculate_inputs_errors_cross_correlation
  let ErrorData ← callR lib .calculate_error_data lib.calculate_error_data
  call lib .calculate_error_data_statistics
  -- Save Results
  let OutputDirectory := DataPath ++ "/output_" ++ NameOfSeries ++ "_"
  call lib (.save .DataSet (OutputDirectory ++ "Data.xml"))
  call lib (.save (.NeuralNetwork NeuralNetwork) (OutputDirectory ++ "ANN.xml"))
  call lib (.save (.Expression NeuralNetwork) (OutputDirectory ++ "ANN_Expression.txt"))
  call lib (.save .TrainingStrategy (OutputDirectory ++ "Training_Strategy.xml"))
  call lib (.save (.Results TrainingResults) (OutputDirectory ++ "Training_Results.dat"))
  RunSeries.loop lib OutputDirectory 0 LinearAnalysisVector
  call lib (.save (.VectorOfVectors ErrorAutocorrelation) (OutputDirectory ++ "ErrorAutocorrelation.dat"))
  call lib (.save (.VectorOfVectors ErrorCorsscorrelation) (OutputDirectory ++ "ErrorCrossCorrelation.dat"))
  call lib (.save (.VectorOfMatrices ErrorData) (OutputDirectory ++ "ErrorData.dat"))
  emit (.leave NameOfSeries)

/-- How the process ends: `main` returns a status, or an exception leaves
`main` uncaught and the process is terminated without a status from `main`. -/
inductive Exit where
  | returned (status : Int)
  | terminated
  deriving DecidableEq, Repr

/-- The `try` block of `main` (source lines 126-134). -/
def main.body {V : Type} (lib : String → Library V) : Prog V Int := do
  emit (.cout "OpenNN. Time Series Examples.")
  RunSeries (lib "parabola") "parabola"
  RunSeries (lib "sine") "sine"
  RunSeries (lib "increasing_sine") "increasing_sine"
  pure 0

/-- The function `int main(void)`: the `try` block, and the handler `catch(exception& e)`,
which takes exceptions derived from `std::exception` only.  `lib` gives the
library's answers during the run of each series. -/
def main {V : Type} (lib : String → Library V) : Exit × World V :=
  match main.body lib World.init with
  | (.ok status, w) => (.returned status, w)
  | (.error (.std what), w) => (.returned 1, { w with trace := w.trace ++ [.cerr what] })
  | (.error .other, w) => (.terminated, w)

/-! ## Observations on a run -/

/-- The events a run of `RunSeries` adds to the trace of the world it starts
in. -/
def RunSeries.events {V : Type} (lib : Library V) (NameOfSeries : String) (w : World V) :
    List (Event V) :=
  (RunSeries lib NameOfSeries w).2.trace.drop w.trace.length

/-- The files a run of `RunSeries` adds to the files of the world it starts
in, in the order of writing. -/
def RunSeries.files {V : Type} (lib : Library V) (NameOfSeries : String) (w : World V) :
    List (String × Saved V) :=
  (RunSeries lib NameOfSeries w).2.files.drop w.files.length

/-- The run returns normally. -/
def RunSeries.returns {V : Type} (lib : Library V) (NameOfSeries : String) (w : World V) :
    Prop :=
  (RunSeries lib NameOfSeries w).1 = .ok ()

/-! ## The run as a list of events

`RunSeries` is straight-line code around one loop, so a run that is not
interrupted produces a fixed list of events, and an interrupted run produces
an initial part of it. -/

/-- The network as the driver has configured it when training starts. -/
def configured {V : Type} (lib : Library V) : NeuralNetwork V :=
  (((((lib.NeuralNetwork .Forecasting
    [lib.get_input_variables_number, 6, lib.get_target_variables_number]).ScalingLayer_set_descriptives
      lib.scale_inputs_minimum_maximum).ScalingLayer_set_scaling_methods
      .NoScaling).UnscalingLayer_set_descriptives
      lib.scale_targets_minimum_maximum).UnscalingLayer_set_unscaling_method
      .NoUnscaling).set_timesteps 4

/-- The network after training. -/
def trained {V : Type} (lib : Library V) : NeuralNetwork V :=
  (configured lib).install lib.perform_training

/-- The events of the loop over the records from index `i` on. -/
def loopScript {V : Type} (OutputDirectory : String) :
    Nat → List (LinearRegressionAnalysis V) → List (Event V)
  | _, [] => []
  | i, r :: rest =>
    .call (.save (.Vector [r.correlation, r.intercept, r.slope])
      (OutputDirectory ++ "LinearAnalysis_" ++ Nat.repr i ++ "Data.dat"))
    :: .call (.save (.Vector r.targets)
      (OutputDirectory ++ "LinearAnalysis_" ++ Nat.repr i ++ "Targets.dat"))
    :: .call (.save (.Vector r.outputs)
      (OutputDirectory ++ "LinearAnalysis_" ++ Nat.repr i ++ "Outputs.dat"))
    :: loopScript OutputDirectory (i + 1) rest

/-- The events of a run up to the loop. -/
def scriptHead {V : Type} (lib : Library V) (NameOfSeries : String) : List (Event V) :=
  [.enter NameOfSeries,
   .cout ("OpenNN. " ++ NameOfSeries ++ " Example."),
   .call (.DataSet ("../data" ++ "/" ++ NameOfSeries ++ ".csv") ',' false),
   .call .calculate_columns_histograms,
   .cout "Converting to time series",
   .call (.set_lags_number 1),
   .call (.set_steps_ahead_number 1),
   .call (.set_time_index 0),
   .call .transform_time_series,
   .call .impute_missing_values_mean,
   .call .split_instances_sequential,
   .call .scale_inputs_minimum_maximum,
   .call .scale_targets_minimum_maximum,
   .cout "Neural Network",
   .call .get_input_variables_number,
   .call .get_target_variables_number,
   .call (.NeuralNetwork .Forecasting
      [lib.get_input_variables_number, 6, lib.get_target_variables_number]),
   .call .get_scaling_layer_pointer,
   .call (.ScalingLayer_set_descriptives lib.scale_inputs_minimum_maximum),
   .call (.ScalingLayer_set_scaling_methods .NoScaling),
   .call .get_unscaling_layer_pointer,
   .call (.UnscalingLayer_set_descriptives lib.scale_targets_minimum_maximum),
   .call (.UnscalingLayer_set_unscaling_method .NoUnscaling),
   .call .get_long_short_term_memory_layer_pointer,
   .call (.set_timesteps 4),
   .call .TrainingStrategy,
   .call .get_quasi_Newton_method_pointer,
   .call (.set_maximum_epochs_number 10000),
   .call (.set_maximum_time 250),
   .call (.set_display_period 10),
   .call (.set_minimum_loss_decrease 0),
   .call (.set_reserve_training_error_history true),
   .call (.set_reserve_selection_error_history true),
   .call (.perform_training (configured lib)),
   .cout "Testing Analysis",
   .call (.TestingAnalysis (trained lib)),
   .call .perform_linear_regression_analysis,
   .call .calculate_error_autocorrelation,
   .call .calculate_inputs_errors_cross_correlation,
   .call .calculate_error_data,
   .call .calculate_error_data_statistics,
   .call (.save .DataSet ("../data" ++ "/output_" ++ NameOfSeries ++ "_" ++ "Data.xml")),
   .call (.save (.NeuralNetwork (trained lib))
      ("../data" ++ "/output_" ++ NameOfSeries ++ "_" ++ "ANN.xml")),
   .call (.save (.Expression (trained lib))
      ("../data" ++ "/output_" ++ NameOfSeries ++ "_" ++ "ANN_Expression.txt")),
   .call (.save .TrainingStrategy
      ("../data" ++ "/output_" ++ NameOfSeries ++ "_" ++ "Training_Strategy.xml")),
   .call (.save (.Results lib.perform_training)
      ("../data" ++ "/output_" ++ NameOfSeries ++ "_" ++ "Training_Results.dat"))]

/-- The events of a run after the loop. -/
def scriptTail {V : Type} (lib : Library V) (NameOfSeries : String) : List (Event V) :=
  [.call (.save (.VectorOfVectors lib.calculate_error_autocorrelation)
      ("../data" ++ "/output_" ++ NameOfSeries ++ "_" ++ "ErrorAutocorrelation.dat")),
   .call (.save (.VectorOfVectors lib.calculate_inputs_errors_cross_correlation)
      ("../data" ++ "/output_" ++ NameOfSeries ++ "_" ++ "ErrorCrossCorrelation.dat")),
   .call (.save (.VectorOfMatrices lib.calculate_error_data)
      ("../data" ++ "/output_" ++ NameOfSeries ++ "_" ++ "ErrorData.dat")),
   .leave NameOfSeries]

/-- The events of a run in which no call throws. -/
def script {V : Type} (lib : Library V) (NameOfSeries : String) : List (Event V) :=
  scriptHead lib NameOfSeries
    ++ loopScript ("../data" ++ "/output_" ++ NameOfSeries ++ "_") 0
        lib.perform_linear_regression_analysis
    ++ scriptTail lib NameOfSeries

/-- Produce one event: a call goes to the library, anything else is only
recorded. -/
def step {V : Type} (lib : Library V) : Event V → Prog V Unit
  | .call c => call lib c
  | e => emit e

/-- Produce the events of a list in order, up to the first call that
throws. -/
def exec {V : Type} (lib : Library V) : List (Event V) → Prog V Unit
  | [] => pure ()
  | e :: es => step lib e >>= fun _ => exec lib es

/-! ## What a list of events produces -/

/-- The exception an event raises, if any: only a library call can raise. -/
def Event.raises {V : Type} (lib : Library V) : Event V → Option Exn
  | .call c => lib.throws c
  | _ => none

/-- The files an event writes when it returns. -/
def Event.written {V : Type} : Event V → List (String × Saved V)
  | .call c => c.written
  | _ => []

/-- The events that take place: those up to and including the first that
raises. -/
def ran {V : Type} (lib : Library V) : List (Event V) → List (Event V)
  | [] => []
  | e :: es =>
    match e.raises lib with
    | some _ => [e]
    | none => e :: ran lib es

/-- The exception the list ends with, if any. -/
def thrown {V : Type} (lib : Library V) : List (Event V) → Option Exn
  | [] => none
  | e :: es =>
    match e.raises lib with
    | some x => some x
    | none => thrown lib es

/-- The files written by the events that return. -/
def wrote {V : Type} (lib : Library V) : List (Event V) → List (String × Saved V)
  | [] => []
  | e :: es =>
    match e.raises lib with
    | some _ => []
    | none => e.written ++ wrote lib es

/-- The result of a list of events. -/
def outcome {V : Type} (lib : Library V) (s : List (Event V)) : Except Exn Unit :=
  match thrown lib s with
  | some x => .error x
  | none => .ok ()

/-- The call of an event, if it is one. -/
def Event.callOf {V : Type} : Event V → Option (Call V)
  | .call c => some c
  | _ => none

/-- A key that tells the calls of a run apart: the position of the member
function in the list of `Call`, and for `save` the file name. -/
def Call.key {V : Type} : Call V → Nat × String
  | .DataSet _ _ _ => (0, "")
  | .calculate_columns_histograms => (1, "")
  | .set_lags_number _ => (2, "")
  | .set_steps_ahead_number _ => (3, "")
  | .set_time_index _ => (4, "")
  | .transform_time_series => (5, "")
  | .impute_missing_values_mean => (6, "")
  | .split_instances_sequential => (7, "")
  | .scale_inputs_minimum_maximum => (8, "")
  | .scale_targets_minimum_maximum => (9, "")
  | .get_input_variables_number => (10, "")
  | .get_target_variables_number => (11, "")
  | .NeuralNetwork _ _ => (12, "")
  | .get_scaling_layer_pointer => (13, "")
  | .ScalingLayer_set_descriptives _ => (14, "")
  | .ScalingLayer_set_scaling_methods _ => (15, "")
  | .get_unscaling_layer_pointer => (16, "")
  | .UnscalingLayer_set_descriptives _ => (17, "")
  | .UnscalingLayer_set_unscaling_method _ => (18, "")
  | .get_long_short_term_memory_layer_pointer => (19, "")
  | .set_timesteps _ => (20, "")
  | .TrainingStrategy => (21, "")
  | .get_quasi_Newton_method_pointer => (22, "")
  | .set_maximum_epochs_number _ => (23, "")
  | .set_maximum_time _ => (24, "")
  | .set_display_period _ => (25, "")
  | .set_minimum_loss_decrease _ => (26, "")
  | .set_reserve_training_error_history _ => (27, "")
  | .set_reserve_selection_error_history _ => (28, "")
  | .perform_training _ => (29, "")
  | .TestingAnalysis _ => (30, "")
  | .perform_linear_regression_analysis => (31, "")
  | .calculate_error_autocorrelation => (32, "")
  | .calculate_inputs_errors_cross_correlation => (33, "")
  | .calculate_error_data => (34, "")
  | .calculate_error_data_statistics => (35, "")
  | .save _ file_name => (36, file_name)

/-! ## Stages of the pipeline -/

/-- The stages of the pipeline named by the specification. -/
inductive Stage where
  | transformation
  | imputation
  | partitioning
  | scaling
  | training
  | evaluation_export
  deriving DecidableEq, Repr

/-- The stage a library call belongs to, for the calls that do the work of a
stage: the two scaling calls are the scaling stage, and the construction of
the testing analysis, its five computations and every `save` are the
evaluation and export stage.  Constructors, getters and setters belong to no
stage. -/
def Call.stage {V : Type} : Call V → Option Stage
  | .transform_time_series => some .transformation
  | .impute_missing_values_mean => some .imputation
  | .split_instances_sequential => some .partitioning
  | .scale_inputs_minimum_maximum => some .scaling
  | .scale_targets_minimum_maximum => some .scaling
  | .perform_training _ => some .training
  | .TestingAnalysis _ => some .evaluation_export
  | .perform_linear_regression_analysis => some .evaluation_export
  | .calculate_error_autocorrelation => some .evaluation_export
  | .calculate_inputs_errors_cross_correlation => some .evaluation_export
  | .calculate_error_data => some .evaluation_export
  | .calculate_error_data_statistics => some .evaluation_export
  | .save _ _ => some .evaluation_export
  | _ => none

/-- The stage of an event. -/
def Event.stage {V : Type} : Event V → Option Stage
  | .call c => c.stage
  | _ => none

/-- The stage calls of a run, in the order they are made. -/
def RunSeries.stages {V : Type} (lib : Library V) (NameOfSeries : String) (w : World V) :
    List Stage :=
  (RunSeries.events lib NameOfSeries w).filterMap Event.stage

/-- The stage calls of a run that is not interrupted, with `k` records in the
linear-regression analysis. -/
def pipeline (k : Nat) : List Stage :=
  [.transformation, .imputation, .partitioning, .scaling, .scaling, .training]
    ++ List.replicate (14 + 3 * k) .evaluation_export

/-- The event is the call that scales the inputs of the data set. -/
def Event.scalesInputs {V : Type} : Event V → Bool
  | .call .scale_inputs_minimum_maximum => true
  | _ => false

/-! ## Observations on `main` -/

/-- The names of the series `RunSeries` has been invoked for, in order. -/
def invoked {V : Type} (t : List (Event V)) : List String :=
  t.filterMap fun e =>
    match e with
    | .enter n => some n
    | _ => none

/-- The event marks a run: entering `RunSeries`, constructing the data set
from its file, or returning from `RunSeries`. -/
def Event.marksRun {V : Type} : Event V → Bool
  | .enter _ => true
  | .leave _ => true
  | .call (.DataSet _ _ _) => true
  | _ => false

/-! ## Output files -/

/-- The number a list of decimal digit characters stands for. -/
def decimalValue (l : List Char) : Nat :=
  l.foldl (fun a c => 10 * a + (c.toNat - 48)) 0

/-- The value of `OutputDirectory` in `RunSeries` (source line 94). -/
def OutputDirectory (NameOfSeries : String) : String :=
  "../data" ++ "/output_" ++ NameOfSeries ++ "_"

/-- The files a run of `RunSeries` can write; `i` is the index of a record of
the linear-regression analysis. -/
inductive Artifact where
  | Data
  | ANN
  | ANN_Expression
  | Training_Strategy
  | Training_Results
  | LinearAnalysisData (i : Nat)
  | LinearAnalysisTargets (i : Nat)
  | LinearAnalysisOutputs (i : Nat)
  | ErrorAutocorrelation
  | ErrorCrossCorrelation
  | ErrorData
  deriving DecidableEq, Repr

/-- The text `RunSeries` appends to `OutputDirectory` for the artifact. -/
def Artifact.file_name : Artifact → String
  | .Data => "Data.xml"
  | .ANN => "ANN.xml"
  | .ANN_Expression => "ANN_Expression.txt"
  | .Training_Strategy => "Training_Strategy.xml"
  | .Training_Results => "Training_Results.dat"
  | .LinearAnalysisData i => "LinearAnalysis_" ++ Nat.repr i ++ "Data.dat"
  | .LinearAnalysisTargets i => "LinearAnalysis_" ++ Nat.repr i ++ "Targets.dat"
  | .LinearAnalysisOutputs i => "LinearAnalysis_" ++ Nat.repr i ++ "Outputs.dat"
  | .ErrorAutocorrelation => "ErrorAutocorrelation.dat"
  | .ErrorCrossCorrelation => "ErrorCrossCorrelation.dat"
  | .ErrorData => "ErrorData.dat"

/-- The path of the artifact in the run of the series. -/
def Artifact.path (NameOfSeries : String) (a : Artifact) : String :=
  OutputDirectory NameOfSeries ++ a.file_name

/-- The artifacts of the loop for `k` records from index `i` on, in the order
of writing. -/
def loopArtifacts : Nat → Nat → List Artifact
  | _, 0 => []
  | i, k + 1 =>
    .LinearAnalysisData i :: .LinearAnalysisTargets i :: .LinearAnalysisOutputs i
      :: loopArtifacts (i + 1) k

/-- The artifacts of a run with `k` linear-regression records, in the order
of writing. -/
def artifacts (k : Nat) : List Artifact :=
  [.Data, .ANN, .ANN_Expression, .Training_Strategy, .Training_Results]
    ++ loopArtifacts 0 k
    ++ [.ErrorAutocorrelation, .ErrorCrossCorrelation, .ErrorData]

/-- The call of an event when it does the work of a stage. -/
def Event.stageCall {V : Type} : Event V → Option (Call V)
  | .call c => if c.stage.isSome then some c else none
  | _ => none

/-- The calls of a run that do the work of a stage, with their arguments, in
the order they are made. -/
def RunSeries.stageCalls {V : Type} (lib : Library V) (NameOfSeries : String) (w : World V) :
    List (Call V) :=
  (RunSeries.events lib NameOfSeries w).filterMap Event.stageCall

/-- The three `save` calls for the record `r` at position `i` of the
linear-regression analysis. -/
def recordSaves {V : Type} (NameOfSeries : String) (i : Nat)
    (r : LinearRegressionAnalysis V) : List (Call V) :=
  [.save (.Vector [r.correlation, r.intercept, r.slope])
      (Artifact.path NameOfSeries (.LinearAnalysisData i)),
   .save (.Vector r.targets) (Artifact.path NameOfSeries (.LinearAnalysisTargets i)),
   .save (.Vector r.outputs) (Artifact.path NameOfSeries (.LinearAnalysisOutputs i))]

/-- The stage calls of a run that is not interrupted: transformation,
imputation, partitioning, scaling of the inputs, scaling of the targets,
training, the construction of the testing analysis and its five computations,
and then the saves: five run artifacts, three files per record, three error
files. -/
def pipelineCalls {V : Type} (lib : Library V) (NameOfSeries : String) : List (Call V) :=
  [.transform_time_series,
   .impute_missing_values_mean,
   .split_instances_sequential,
   .scale_inputs_minimum_maximum,
   .scale_targets_minimum_maximum,
   .perform_training (configured lib),
   .TestingAnalysis (trained lib),
   .perform_linear_regression_analysis,
   .calculate_error_autocorrelation,
   .calculate_inputs_errors_cross_correlation,
   .calculate_error_data,
   .calculate_error_data_statistics,
   .save .DataSet (Artifact.path NameOfSeries .Data),
   .save (.NeuralNetwork (trained lib)) (Artifact.path NameOfSeries .ANN),
   .save (.Expression (trained lib)) (Artifact.path NameOfSeries .ANN_Expression),
   .save .TrainingStrategy (Artifact.path NameOfSeries .Training_Strategy),
   .save (.Results lib.perform_training) (Artifact.path NameOfSeries .Training_Results)]
    ++ lib.perform_linear_regression_analysis.enum.flatMap
        (fun ir => recordSaves NameOfSeries ir.1 ir.2)
    ++ [.save (.VectorOfVectors lib.calculate_error_autocorrelation)
          (Artifact.path NameOfSeries .ErrorAutocorrelation),
        .save (.VectorOfVectors lib.calculate_inputs_errors_cross_correlation)
          (Artifact.path NameOfSeries .ErrorCrossCorrelation),
        .save (.VectorOfMatrices lib.calculate_error_data)
          (Artifact.path NameOfSeries .ErrorData)]

/-! ## Libraries used as examples -/

/-- A library none of whose calls throws, with nothing to report: empty
descriptives, no variables, the network as given, no analysis records. -/
def Library.quiet {V : Type} : Library V where
  throws := fun _ => none
  scale_inputs_minimum_maximum := []
  scale_targets_minimum_maximum := []
  get_input_variables_number := 0
  get_target_variables_number := 0
  NeuralNetwork := fun _ a => ⟨a, ⟨[], .MinimumMaximum⟩, ⟨[], .MinimumMaximum⟩, 0, []⟩
  perform_training := ⟨[], [], []⟩
  perform_linear_regression_analysis := []
  calculate_error_autocorrelation := []
  calculate_inputs_errors_cross_correlation := []
  calculate_error_data := []

/-- A library whose data-set constructor throws a `std::exception`, as when
the data file cannot be opened; no other call throws. -/
def Library.refusing {V : Type} : Library V :=
  { Library.quiet with
    throws := fun c =>
      match c with
      | .DataSet _ _ _ => some (.std "Cannot open data file.")
      | _ => none }

/-- The library of a process in which the data file of the first series
cannot be opened and every other call returns. -/
def Library.parabolaMissing {V : Type} : String → Library V :=
  fun n => if n = "parabola" then Library.refusing else Library.quiet

/-- A library over the rationals none of whose calls throws, with one target
column whose values range over `[0, 10]`. -/
def Library.oneTarget : Library ℚ :=
  { Library.quiet with scale_targets_minimum_maximum := [⟨0, 10, 5, 3⟩] }

/-- A library none of whose calls throws and whose linear-regression analysis
has two records. -/
def Library.twoRecords : Library Nat :=
  { Library.quiet with
    perform_linear_regression_analysis := [⟨1, 2, 3, [4], [5]⟩, ⟨6, 7, 8, [9], [10]⟩] }

/-! ## Lemmas on programs -/

theorem Prog.bind_def {V α β : Type} (m : Prog V α) (f : α → Prog V β) :
    (m >>= f) = Prog.bind m f := rfl

theorem Prog.pure_def {V α : Type} (a : α) : (pure a : Prog V α) = fun w => (.ok a, w) := rfl

theorem Prog.pure_bind {V α β : Type} (a : α) (f : α → Prog V β) :
    (pure a >>= f) = f a := rfl

theorem Prog.bind_assoc {V α β γ : Type} (m : Prog V α) (f : α → Prog V β)
    (g : β → Prog V γ) : (m >>= f >>= g) = (m >>= fun a => f a >>= g) := by
  funext w
  simp only [Prog.bind_def, Prog.bind]
  rcases m w with ⟨_ | _, _⟩ <;> rfl

theorem Prog.bind_pure_unit {V : Type} (m : Prog V Unit) :
    (m >>= fun _ => (pure () : Prog V Unit)) = m := by
  funext w
  simp only [Prog.bind_def, Prog.bind, Prog.pure_def]
  rcases m w with ⟨_ | _, _⟩ <;> rfl

theorem callR_bind {V α β : Type} (lib : Library V) (c : Call V) (v : α)
    (f : α → Prog V β) : (callR lib c v >>= f) = (call lib c >>= fun _ => f v) := by
  funext w
  simp only [Prog.bind_def, Prog.bind, call, callR]
  cases lib.throws c <;> rfl

theorem exec_append {V : Type} (lib : Library V) (a b : List (Event V)) :
    exec lib (a ++ b) = (exec lib a >>= fun _ => exec lib b) := by
  induction a with
  | nil => rfl
  | cons e es ih =>
    show (step lib e >>= fun _ => exec lib (es ++ b)) = _
    rw [ih]
    simp only [exec, Prog.bind_assoc]

theorem loop_eq_exec {V : Type} (lib : Library V) (OutputDirectory : String)
    (rs : List (LinearRegressionAnalysis V)) (i : Nat) :
    RunSeries.loop lib OutputDirectory i rs = exec lib (loopScript OutputDirectory i rs) := by
  induction rs generalizing i with
  | nil => rfl
  | cons r rest ih =>
    simp only [RunSeries.loop, loopScript, exec, step, ih, List.nil_append,
      List.cons_append, List.singleton_append]

/-- A run of `RunSeries` produces the events of `script` in order and stops
at the first call that throws. -/
theorem RunSeries_eq_exec {V : Type} (lib : Library V) (NameOfSeries : String) :
    RunSeries lib NameOfSeries = exec lib (script lib NameOfSeries) := by
  rw [script, exec_append, exec_append]
  simp only [RunSeries, scriptHead, scriptTail, exec, step, callR_bind,
    loop_eq_exec, Prog.bind_assoc, Prog.pure_bind, Prog.bind_pure_unit, configured, trained]

/-! ## Lemmas on what a list of events produces -/

theorem step_apply {V : Type} (lib : Library V) (e : Event V) (w : World V) :
    step lib e w =
      match e.raises lib with
      | some x => (.error x, { w with trace := w.trace ++ [e] })
      | none => (.ok (), { trace := w.trace ++ [e], files := w.files ++ e.written }) := by
  cases e <;> simp [step, emit, call, callR, Event.raises, Event.written]

theorem exec_apply {V : Type} (lib : Library V) (s : List (Event V)) (w : World V) :
    exec lib s w = (outcome lib s, ⟨w.trace ++ ran lib s, w.files ++ wrote lib s⟩) := by
  induction s generalizing w with
  | nil => simp [exec, outcome, thrown, ran, wrote, Prog.pure_def]
  | cons e es ih =>
    simp only [exec, Prog.bind_def, Prog.bind, step_apply, outcome, thrown, ran, wrote]
    cases h : e.raises lib with
    | some x => simp
    | none => simp [ih, outcome]

theorem RunSeries_apply {V : Type} (lib : Library V) (n : String) (w : World V) :
    RunSeries lib n w =
      (outcome lib (script lib n),
        ⟨w.trace ++ ran lib (script lib n), w.files ++ wrote lib (script lib n)⟩) := by
  rw [RunSeries_eq_exec, exec_apply]

theorem events_eq {V : Type} (lib : Library V) (n : String) (w : World V) :
    RunSeries.events lib n w = ran lib (script lib n) := by
  simp [RunSeries.events, RunSeries_apply]

theorem files_eq {V : Type} (lib : Library V) (n : String) (w : World V) :
    RunSeries.files lib n w = wrote lib (script lib n) := by
  simp [RunSeries.files, RunSeries_apply]

theorem returns_iff {V : Type} (lib : Library V) (n : String) (w : World V) :
    RunSeries.returns lib n w ↔ thrown lib (script lib n) = none := by
  simp only [RunSeries.returns, RunSeries_apply, outcome]
  cases thrown lib (script lib n) <;> simp

theorem ran_isPrefix {V : Type} (lib : Library V) (s : List (Event V)) : ran lib s <+: s := by
  induction s with
  | nil => simp [ran]
  | cons e es ih =>
    simp only [ran]
    cases e.raises lib with
    | some x => simp
    | none => simpa using ih

theorem ran_of_thrown_none {V : Type} (lib : Library V) (s : List (Event V))
    (h : thrown lib s = none) : ran lib s = s := by
  induction s with
  | nil => rfl
  | cons e es ih =>
    simp only [thrown] at h
    simp only [ran]
    cases he : e.raises lib with
    | some x => simp [he] at h
    | none => simp [he] at h; simp [ih h]

theorem wrote_of_thrown_none {V : Type} (lib : Library V) (s : List (Event V))
    (h : thrown lib s = none) : wrote lib s = s.flatMap Event.written := by
  induction s with
  | nil => rfl
  | cons e es ih =>
    simp only [thrown] at h
    simp only [wrote]
    cases he : e.raises lib with
    | some x => simp [he] at h
    | none => simp [he] at h; simp [ih h]

/-! ## Lemmas on the script -/

theorem mem_loopScript {V : Type} (dir : String) (rs : List (LinearRegressionAnalysis V))
    (i : Nat) (e : Event V) (h : e ∈ loopScript dir i rs) :
    ∃ v file_name, e = .call (.save (.Vector v) file_name) := by
  induction rs generalizing i with
  | nil => simp [loopScript] at h
  | cons r rest ih =>
    simp only [loopScript, List.mem_cons] at h
    rcases h with h | h | h | h
    · exact ⟨_, _, h⟩
    · exact ⟨_, _, h⟩
    · exact ⟨_, _, h⟩
    · exact ih _ h

theorem loopScript_stage {V : Type} (dir : String) (rs : List (LinearRegressionAnalysis V))
    (i : Nat) :
    (loopScript dir i rs).filterMap Event.stage
      = List.replicate (3 * rs.length) .evaluation_export := by
  induction rs generalizing i with
  | nil => simp [loopScript]
  | cons r rest ih =>
    have h : 3 * (rest.length + 1) = 3 * rest.length + 1 + 1 + 1 := by ring
    simp [loopScript, Event.stage, Call.stage, ih, h, List.replicate_succ]

theorem script_stage {V : Type} (lib : Library V) (n : String) :
    (script lib n).filterMap Event.stage
      = pipeline lib.perform_linear_regression_analysis.length := by
  have h : 14 + 3 * lib.perform_linear_regression_analysis.length
      = 11 + (3 * lib.perform_linear_regression_analysis.length + 3) := by ring
  simp only [script, pipeline, List.filterMap_append, loopScript_stage, h, List.replicate_add]
  simp [scriptHead, scriptTail, Event.stage, Call.stage, List.replicate_succ]

/-- Unique position of an event that occurs once: when `x` occurs in neither
`a` nor `b`, any other way of cutting an initial part of `a ++ x :: b` at an
occurrence of `x` cuts it at the same place. -/
theorem cut_unique {α : Type} {x : α} {a b p q : List α} (ha : x ∉ a) (hb : x ∉ b)
    (h : p ++ x :: q <+: a ++ x :: b) : p = a := by
  obtain ⟨t, ht⟩ := h
  rw [List.append_assoc, List.cons_append] at ht
  rcases List.append_eq_append_iff.1 ht with ⟨c, hc, hc'⟩ | ⟨c, hc, hc'⟩
  · cases c with
    | nil => simpa using hc.symm
    | cons y c =>
      simp only [List.cons_append, List.cons.injEq] at hc'
      exact absurd (by rw [hc]; simp [hc'.1]) ha
  · cases c with
    | nil => simpa using hc
    | cons y c =>
      simp only [List.cons_append, List.cons.injEq] at hc'
      exact absurd (by rw [hc'.2]; simp [hc'.1]) hb

theorem raises_none_of_ran {V : Type} (lib : Library V) (s p q : List (Event V)) (x : Event V)
    (h : ran lib s = p ++ x :: q) : ∀ e ∈ p, e.raises lib = none := by
  induction s generalizing p with
  | nil => simp [ran] at h
  | cons e es ih =>
    simp only [ran] at h
    cases he : e.raises lib with
    | some y =>
      rw [he] at h
      cases p with
      | nil => simp
      | cons a p => simp at h
    | none =>
      rw [he] at h
      cases p with
      | nil => simp
      | cons a p =>
        simp only [List.cons_append, List.cons.injEq] at h
        intro e' he'
        rcases List.mem_cons.1 he' with rfl | h'
        · rw [← h.1]; exact he
        · exact ih p h.2 e' h'

theorem thrown_none_of_quiet {V : Type} (lib : Library V) (s : List (Event V))
    (h : ∀ c, lib.throws c = none) : thrown lib s = none := by
  induction s with
  | nil => rfl
  | cons e es ih =>
    have he : e.raises lib = none := by cases e <;> simp [Event.raises, h]
    simp [thrown, he, ih]

theorem stages_eq {V : Type} (lib : Library V) (n : String) (w : World V) :
    RunSeries.stages lib n w = (ran lib (script lib n)).filterMap Event.stage := by
  rw [RunSeries.stages, events_eq]

theorem script_eq_cut_impute {V : Type} (lib : Library V) (n : String) :
    script lib n = (scriptHead lib n).take 9
      ++ .call .impute_missing_values_mean
        :: ((scriptHead lib n).drop 10
            ++ loopScript ("../data" ++ "/output_" ++ n ++ "_") 0
                lib.perform_linear_regression_analysis
            ++ scriptTail lib n) := by
  simp [script, scriptHead]

/-! ## Order of the calls of a run -/

/-- C2: in every run of `RunSeries`, whatever the library answers, a call of
`impute_missing_values_mean` comes directly after the calls
`set_lags_number(1)`, `set_steps_ahead_number(1)`, `set_time_index(0)` and
`transform_time_series()`, in this order, and the transformation has returned
without throwing: imputation is never invoked on the untransformed data
set. -/
theorem imputation_follows_transformation {V : Type} (lib : Library V)
    (NameOfSeries : String) (w : World V) (before after : List (Event V))
    (h : RunSeries.events lib NameOfSeries w
      = before ++ .call .impute_missing_values_mean :: after) :
    [.call (.set_lags_number 1), .call (.set_steps_ahead_number 1),
        .call (.set_time_index 0), .call .transform_time_series] <:+ before
      ∧ lib.throws .transform_time_series = none := by
  rw [events_eq] at h
  have hp : before ++ .call .impute_missing_values_mean :: after <+: script lib NameOfSeries := by
    rw [← h]; exact ran_isPrefix _ _
  rw [script_eq_cut_impute] at hp
  have hb : before = (scriptHead lib NameOfSeries).take 9 := by
    refine cut_unique ?_ ?_ hp
    · simp [scriptHead]
    · simp only [List.mem_append, not_or]
      refine ⟨⟨by simp [scriptHead], ?_⟩, by simp [scriptTail]⟩
      intro hm
      obtain ⟨c, f, hc⟩ := mem_loopScript _ _ _ _ hm
      simp at hc
  have hr := raises_none_of_ran lib _ _ _ _ h (.call .transform_time_series)
    (by rw [hb]; simp [scriptHead])
  refine ⟨?_, hr⟩
  rw [hb]
  exact ⟨(scriptHead lib NameOfSeries).take 5, by simp [scriptHead]⟩

theorem imputation_follows_transformation_witness :
    ([.call (.set_lags_number 1), .call (.set_steps_ahead_number 1),
        .call (.set_time_index 0), .call .transform_time_series]
      <:+ (scriptHead (V := Nat) Library.quiet "sine").take 9)
      ∧ (Library.quiet (V := Nat)).throws .transform_time_series = none :=
  imputation_follows_transformation Library.quiet "sine" World.init
    ((scriptHead Library.quiet "sine").take 9)
    ((scriptHead Library.quiet "sine").drop 10
      ++ loopScript ("../data" ++ "/output_" ++ "sine" ++ "_") 0 []
      ++ scriptTail Library.quiet "sine")
    (by
      rw [events_eq, ran_of_thrown_none _ _ (thrown_none_of_quiet _ _ (fun _ => rfl))]
      exact script_eq_cut_impute _ _)

/-- C3, refuted as stated: in a run that returns, the first stage call is the
time-series transformation and the second is the imputation, so the
transformation is invoked before any imputation has been. -/
theorem transformation_is_first_stage :
    RunSeries.returns (V := Nat) Library.quiet "parabola" World.init
      ∧ (RunSeries.stages (V := Nat) Library.quiet "parabola" World.init).take 2
        = [.transformation, .imputation] := by
  have h := thrown_none_of_quiet (V := Nat) Library.quiet (script Library.quiet "parabola")
    (fun _ => rfl)
  refine ⟨(returns_iff _ _ _).2 h, ?_⟩
  rw [stages_eq, ran_of_thrown_none _ _ h, script_stage]
  rfl

/-! ## The layers of the network -/

theorem mem_script_perform_training {V : Type} (lib : Library V) (n : String)
    (nn : NeuralNetwork V) (h : Event.call (.perform_training nn) ∈ script lib n) :
    nn = configured lib := by
  simp only [script, List.mem_append] at h
  rcases h with (h | h) | h
  · simpa [scriptHead] using h
  · obtain ⟨c, f, hc⟩ := mem_loopScript _ _ _ _ h
    simp at hc
  · simp [scriptTail] at h

theorem mem_script_TestingAnalysis {V : Type} (lib : Library V) (n : String)
    (nn : NeuralNetwork V) (h : Event.call (.TestingAnalysis nn) ∈ script lib n) :
    nn = trained lib := by
  simp only [script, List.mem_append] at h
  rcases h with (h | h) | h
  · simpa [scriptHead] using h
  · obtain ⟨c, f, hc⟩ := mem_loopScript _ _ _ _ h
    simp at hc
  · simp [scriptTail] at h

theorem mem_wrote_script {V : Type} (lib : Library V) (s : List (Event V))
    (f : String × Saved V) (h : f ∈ wrote lib s) : Event.call (.save f.2 f.1) ∈ s := by
  induction s with
  | nil => simp [wrote] at h
  | cons e es ih =>
    simp only [wrote] at h
    cases he : e.raises lib with
    | some x => simp [he] at h
    | none =>
      rw [he] at h
      rcases List.mem_append.1 h with h | h
      · cases e with
        | call c =>
          cases c <;> simp [Event.written, Call.written] at h
          subst h
          simp
        | _ => simp [Event.written] at h
      · exact List.mem_cons_of_mem _ (ih h)

theorem mem_script_save_NeuralNetwork {V : Type} (lib : Library V) (n : String)
    (nn : NeuralNetwork V) (f : String)
    (h : Event.call (.save (.NeuralNetwork nn) f) ∈ script lib n) :
    nn = trained lib := by
  simp only [script, List.mem_append] at h
  rcases h with (h | h) | h
  · simp [scriptHead] at h
    exact h.1
  · obtain ⟨c, f, hc⟩ := mem_loopScript _ _ _ _ h
    simp at hc
  · simp [scriptTail] at h

theorem script_eq_cut_training {V : Type} (lib : Library V) (n : String) :
    script lib n = (scriptHead lib n).take 33
      ++ .call (.perform_training (configured lib))
        :: ((scriptHead lib n).drop 34
            ++ loopScript ("../data" ++ "/output_" ++ n ++ "_") 0
                lib.perform_linear_regression_analysis
            ++ scriptTail lib n) := by
  simp [script, scriptHead]

theorem scalesInputs_after_training {V : Type} (lib : Library V) (n : String) (e : Event V)
    (h : e ∈ (scriptHead lib n).drop 34
            ++ loopScript ("../data" ++ "/output_" ++ n ++ "_") 0
                lib.perform_linear_regression_analysis
            ++ scriptTail lib n) : e.scalesInputs = false := by
  simp only [List.mem_append] at h
  rcases h with (h | h) | h
  · simp [scriptHead] at h
    rcases h with h | h | h | h | h | h | h | h | h | h | h | h <;> subst h <;> rfl
  · obtain ⟨c, f, hc⟩ := mem_loopScript _ _ _ _ h
    subst hc; rfl
  · simp [scriptTail] at h
    rcases h with h | h | h | h <;> subst h <;> rfl

/-- C9: when `perform_training` is called, the scaling layer of the network
holds the descriptives returned by `scale_inputs_minimum_maximum` and the
unscaling layer those returned by `scale_targets_minimum_maximum`, both layers
are set to pass their values through, the inputs of the data set have been
scaled by exactly one call, and every network that the run saves still
carries the same two layers.  A run that returns does save the network: the
file `ANN.xml` of the series holds the network after training, with the same
descriptives in its two layers. -/
theorem layers_when_training_starts {V : Type} [Field V] (lib : Library V)
    (NameOfSeries : String) (w : World V) (nn : NeuralNetwork V)
    (h : .call (.perform_training nn) ∈ RunSeries.events lib NameOfSeries w) :
    nn.scaling_layer = ⟨lib.scale_inputs_minimum_maximum, .NoScaling⟩
      ∧ nn.unscaling_layer = ⟨lib.scale_targets_minimum_maximum, .NoUnscaling⟩
      ∧ (∀ inputs, nn.scaling_layer.calculate_outputs inputs = inputs)
      ∧ (∀ outputs, nn.unscaling_layer.calculate_outputs outputs = outputs)
      ∧ (RunSeries.events lib NameOfSeries w).countP Event.scalesInputs = 1
      ∧ (∀ file_name saved,
          (file_name, Saved.NeuralNetwork saved) ∈ RunSeries.files lib NameOfSeries w →
            saved.scaling_layer = nn.scaling_layer
              ∧ saved.unscaling_layer = nn.unscaling_layer)
      ∧ (RunSeries.returns lib NameOfSeries w →
          (Artifact.path NameOfSeries .ANN,
              Saved.NeuralNetwork (nn.install lib.perform_training))
                ∈ RunSeries.files lib NameOfSeries w
            ∧ (nn.install lib.perform_training).scaling_layer
              = ⟨lib.scale_inputs_minimum_maximum, .NoScaling⟩
            ∧ (nn.install lib.perform_training).unscaling_layer
              = ⟨lib.scale_targets_minimum_maximum, .NoUnscaling⟩) := by
  rw [events_eq] at h ⊢
  rw [files_eq]
  have hnn : nn = configured lib :=
    mem_script_perform_training lib NameOfSeries nn ((ran_isPrefix _ _).subset h)
  subst hnn
  refine ⟨rfl, rfl, fun _ => rfl, fun _ => rfl, ?_, ?_, ?_⟩
  · obtain ⟨p, q, hpq⟩ := List.append_of_mem h
    have hp : p ++ .call (.perform_training (configured lib)) :: q <+: script lib NameOfSeries := by
      rw [← hpq]; exact ran_isPrefix _ _
    rw [script_eq_cut_training] at hp
    have hb : p = (scriptHead lib NameOfSeries).take 33 := by
      refine cut_unique ?_ ?_ hp
      · simp [scriptHead]
      · simp only [List.mem_append, not_or]
        refine ⟨⟨by simp [scriptHead], ?_⟩, by simp [scriptTail]⟩
        intro hm
        obtain ⟨c, f, hc⟩ := mem_loopScript _ _ _ _ hm
        simp at hc
    subst hb
    have hq : q <+: (scriptHead lib NameOfSeries).drop 34
            ++ loopScript ("../data" ++ "/output_" ++ NameOfSeries ++ "_") 0
                lib.perform_linear_regression_analysis
            ++ scriptTail lib NameOfSeries := by
      have := (List.prefix_append_right_inj _).1 hp
      exact (List.prefix_cons_inj _).1 this
    have hq0 : q.countP Event.scalesInputs = 0 := by
      rw [List.countP_eq_zero]
      intro e he
      simp [scalesInputs_after_training lib NameOfSeries e (hq.subset he)]
    rw [hpq, List.countP_append, List.countP_cons, hq0]
    simp [scriptHead, Event.scalesInputs, List.countP_cons]
  · intro f saved hf
    have hm := mem_wrote_script lib _ _ hf
    have hs := mem_script_save_NeuralNetwork lib NameOfSeries saved f hm
    subst hs
    exact ⟨rfl, rfl⟩
  · intro hret
    refine ⟨?_, rfl, rfl⟩
    rw [wrote_of_thrown_none _ _ ((returns_iff _ _ _).1 hret), script, List.flatMap_append,
      List.flatMap_append, List.mem_append, List.mem_append]
    refine Or.inl (Or.inl ?_)
    simp [scriptHead, Event.written, Call.written, List.flatMap_cons, Artifact.path,
      Artifact.file_name, OutputDirectory, trained]

theorem layers_when_training_starts_witness :
    (configured Library.oneTarget).scaling_layer = ⟨[], .NoScaling⟩
      ∧ (configured Library.oneTarget).unscaling_layer = ⟨[⟨0, 10, 5, 3⟩], .NoUnscaling⟩
      ∧ (∀ inputs, (configured Library.oneTarget).scaling_layer.calculate_outputs inputs = inputs)
      ∧ (∀ outputs,
          (configured Library.oneTarget).unscaling_layer.calculate_outputs outputs = outputs)
      ∧ (RunSeries.events Library.oneTarget "sine" World.init).countP Event.scalesInputs = 1
      ∧ (∀ file_name saved,
          (file_name, Saved.NeuralNetwork saved)
              ∈ RunSeries.files Library.oneTarget "sine" World.init →
            saved.scaling_layer = (configured Library.oneTarget).scaling_layer
              ∧ saved.unscaling_layer = (configured Library.oneTarget).unscaling_layer)
      ∧ (Artifact.path "sine" .ANN,
            Saved.NeuralNetwork
              ((configured Library.oneTarget).install Library.oneTarget.perform_training))
          ∈ RunSeries.files Library.oneTarget "sine" World.init
      ∧ ((configured Library.oneTarget).install Library.oneTarget.perform_training).scaling_layer
          = ⟨[], .NoScaling⟩
      ∧ ((configured Library.oneTarget).install
            Library.oneTarget.perform_training).unscaling_layer
          = ⟨[⟨0, 10, 5, 3⟩], .NoUnscaling⟩ :=
  have t := layers_when_training_starts Library.oneTarget "sine" World.init
    (configured Library.oneTarget)
    (by
      rw [events_eq, ran_of_thrown_none _ _ (thrown_none_of_quiet _ _ (fun _ => rfl))]
      simp [script, scriptHead])
  ⟨t.1, t.2.1, t.2.2.1, t.2.2.2.1, t.2.2.2.2.1, t.2.2.2.2.2.1,
    t.2.2.2.2.2.2 ((returns_iff _ _ _).2 (thrown_none_of_quiet _ _ (fun _ => rfl)))⟩

/-- C8, refuted as stated: with one target column scaled from `[0, 10]`, the
network handed to the testing analysis holds those descriptives but returns a
raw output `0` as `0`, whereas the inverse of the min-max scaling with the
same descriptives maps `0` to `5`. -/
theorem evaluated_model_returns_scaled_outputs :
    Event.call (.TestingAnalysis (trained Library.oneTarget))
        ∈ RunSeries.events Library.oneTarget "parabola" World.init
      ∧ (trained Library.oneTarget).unscaling_layer.descriptives = [⟨0, 10, 5, 3⟩]
      ∧ (trained Library.oneTarget).unscaling_layer.calculate_outputs [0] = [0]
      ∧ List.zipWith (unscale .MinimumMaximum)
          (trained Library.oneTarget).unscaling_layer.descriptives [0] = [5] := by
  refine ⟨?_, rfl, rfl, ?_⟩
  · rw [events_eq, ran_of_thrown_none _ _ (thrown_none_of_quiet _ _ (fun _ => rfl))]
    simp [script, scriptHead]
  · show List.zipWith (unscale .MinimumMaximum) [(⟨0, 10, 5, 3⟩ : Descriptives ℚ)] [0] = [5]
    simp [unscale]
    norm_num

/-- C8, amended: the network that the testing analysis is constructed on
holds, in its unscaling layer, the descriptives returned by
`scale_targets_minimum_maximum`, and the layer is set to `NoUnscaling`: it
returns the outputs of the network unchanged and applies no inverse of the
target scaling. -/
theorem evaluated_model_keeps_descriptives_without_unscaling {V : Type} [Field V]
    (lib : Library V) (NameOfSeries : String) (w : World V) (nn : NeuralNetwork V)
    (h : .call (.TestingAnalysis nn) ∈ RunSeries.events lib NameOfSeries w) :
    nn.unscaling_layer.descriptives = lib.scale_targets_minimum_maximum
      ∧ nn.unscaling_layer.unscaling_method = .NoUnscaling
      ∧ (∀ outputs, nn.unscaling_layer.calculate_outputs outputs = outputs) := by
  rw [events_eq] at h
  have hnn : nn = trained lib :=
    mem_script_TestingAnalysis lib NameOfSeries nn ((ran_isPrefix _ _).subset h)
  subst hnn
  exact ⟨rfl, rfl, fun _ => rfl⟩

theorem evaluated_model_keeps_descriptives_without_unscaling_witness :
    (trained Library.oneTarget).unscaling_layer.descriptives = [⟨0, 10, 5, 3⟩]
      ∧ (trained Library.oneTarget).unscaling_layer.unscaling_method = .NoUnscaling
      ∧ (∀ outputs,
          (trained Library.oneTarget).unscaling_layer.calculate_outputs outputs = outputs) :=
  evaluated_model_keeps_descriptives_without_unscaling Library.oneTarget "sine" World.init
    (trained Library.oneTarget)
    (by
      rw [events_eq, ran_of_thrown_none _ _ (thrown_none_of_quiet _ _ (fun _ => rfl))]
      simp [script, scriptHead])

/-! ## The top-level driver -/

theorem result_eq {V : Type} (lib : Library V) (n : String) (w : World V) :
    (RunSeries lib n w).1 = outcome lib (script lib n) := by
  rw [RunSeries_apply]

theorem thrown_of_error {V : Type} (lib : Library V) (n : String) (w : World V) (e : Exn)
    (h : (RunSeries lib n w).1 = .error e) : thrown lib (script lib n) = some e := by
  rw [result_eq, outcome] at h
  cases ht : thrown lib (script lib n) with
  | none => simp [ht] at h
  | some x => simp [ht] at h; rw [h]

theorem main_body_first {V : Type} (lib : String → Library V) (e : Exn)
    (h : thrown (lib "parabola") (script (lib "parabola") "parabola") = some e) :
    main.body lib World.init
      = (.error e,
          ⟨.cout "OpenNN. Time Series Examples."
            :: ran (lib "parabola") (script (lib "parabola") "parabola"),
           wrote (lib "parabola") (script (lib "parabola") "parabola")⟩) := by
  simp [main.body, Prog.bind_def, Prog.bind, emit, RunSeries_apply, outcome, h, World.init]

theorem main_body_second {V : Type} (lib : String → Library V) (e : Exn)
    (h₁ : thrown (lib "parabola") (script (lib "parabola") "parabola") = none)
    (h₂ : thrown (lib "sine") (script (lib "sine") "sine") = some e) :
    main.body lib World.init
      = (.error e,
          ⟨.cout "OpenNN. Time Series Examples."
            :: (script (lib "parabola") "parabola"
              ++ ran (lib "sine") (script (lib "sine") "sine")),
           wrote (lib "parabola") (script (lib "parabola") "parabola")
            ++ wrote (lib "sine") (script (lib "sine") "sine")⟩) := by
  simp [main.body, Prog.bind_def, Prog.bind, emit, RunSeries_apply, outcome, h₁, h₂,
    World.init, ran_of_thrown_none _ _ h₁]

theorem main_body_third {V : Type} (lib : String → Library V) (e : Exn)
    (h₁ : thrown (lib "parabola") (script (lib "parabola") "parabola") = none)
    (h₂ : thrown (lib "sine") (script (lib "sine") "sine") = none)
    (h₃ : thrown (lib "increasing_sine") (script (lib "increasing_sine") "increasing_sine")
      = some e) :
    main.body lib World.init
      = (.error e,
          ⟨.cout "OpenNN. Time Series Examples."
            :: (script (lib "parabola") "parabola" ++ (script (lib "sine") "sine"
              ++ ran (lib "increasing_sine") (script (lib "increasing_sine") "increasing_sine"))),
           wrote (lib "parabola") (script (lib "parabola") "parabola")
            ++ (wrote (lib "sine") (script (lib "sine") "sine")
            ++ wrote (lib "increasing_sine")
                (script (lib "increasing_sine") "increasing_sine"))⟩) := by
  simp [main.body, Prog.bind_def, Prog.bind, emit, RunSeries_apply, outcome, h₁, h₂, h₃,
    World.init, ran_of_thrown_none _ _ h₁, ran_of_thrown_none _ _ h₂]

theorem main_body_all {V : Type} (lib : String → Library V)
    (h₁ : thrown (lib "parabola") (script (lib "parabola") "parabola") = none)
    (h₂ : thrown (lib "sine") (script (lib "sine") "sine") = none)
    (h₃ : thrown (lib "increasing_sine") (script (lib "increasing_sine") "increasing_sine")
      = none) :
    main.body lib World.init
      = (.ok 0,
          ⟨.cout "OpenNN. Time Series Examples."
            :: (script (lib "parabola") "parabola" ++ (script (lib "sine") "sine"
              ++ script (lib "increasing_sine") "increasing_sine")),
           wrote (lib "parabola") (script (lib "parabola") "parabola")
            ++ (wrote (lib "sine") (script (lib "sine") "sine")
            ++ wrote (lib "increasing_sine")
                (script (lib "increasing_sine") "increasing_sine"))⟩) := by
  simp [main.body, Prog.bind_def, Prog.bind, emit, RunSeries_apply, outcome, h₁, h₂, h₃,
    World.init, ran_of_thrown_none _ _ h₁, ran_of_thrown_none _ _ h₂,
    ran_of_thrown_none _ _ h₃, Prog.pure_def]

theorem invoked_append {V : Type} (a b : List (Event V)) :
    invoked (a ++ b) = invoked a ++ invoked b := by
  simp [invoked]

theorem invoked_cons_cout {V : Type} (s : String) (a : List (Event V)) :
    invoked (.cout s :: a) = invoked a := by
  simp [invoked]

theorem invoked_script {V : Type} (lib : Library V) (n : String) :
    invoked (script lib n) = [n] := by
  have hl : (loopScript ("../data" ++ "/output_" ++ n ++ "_") 0
      lib.perform_linear_regression_analysis).filterMap (fun e =>
        match e with
        | .enter n => some n
        | _ => none) = [] := by
    rw [List.filterMap_eq_nil_iff]
    intro e he
    obtain ⟨c, f, hc⟩ := mem_loopScript _ _ _ _ he
    subst hc; rfl
  simp only [invoked, script, List.filterMap_append, hl]
  simp [scriptHead, scriptTail]

theorem invoked_ran_script {V : Type} (lib : Library V) (n : String) :
    invoked (ran lib (script lib n)) = [n] := by
  have hs : script lib n = .enter n :: (script lib n).tail := by
    simp [script, scriptHead]
  have hp : invoked (ran lib (script lib n)) <+: [n] := by
    rw [← invoked_script lib n]
    exact (ran_isPrefix _ _).filterMap _
  have hr : ran lib (script lib n) = .enter n :: ran lib (script lib n).tail := by
    conv_lhs => rw [hs]
    simp [ran, Event.raises]
  rw [hr] at hp ⊢
  have hc : invoked (.enter n :: ran lib (script lib n).tail)
      = n :: invoked (ran lib (script lib n).tail) := by
    simp [invoked]
  rw [hc] at hp ⊢
  have hlen := hp.length_le
  simp at hlen
  simp [hlen]

theorem marks_script {V : Type} (lib : Library V) (n : String) :
    (script lib n).filter Event.marksRun
      = [.enter n, .call (.DataSet ("../data" ++ "/" ++ n ++ ".csv") ',' false), .leave n] := by
  have hl : (loopScript ("../data" ++ "/output_" ++ n ++ "_") 0
      lib.perform_linear_regression_analysis).filter Event.marksRun = [] := by
    rw [List.filter_eq_nil_iff]
    intro e he
    obtain ⟨c, f, hc⟩ := mem_loopScript _ _ _ _ he
    subst hc; simp [Event.marksRun]
  simp only [script, List.filter_append, hl]
  simp [scriptHead, scriptTail, Event.marksRun]

theorem thrown_refusing {V : Type} (n : String) :
    thrown (Library.refusing (V := V)) (script Library.refusing n)
      = some (.std "Cannot open data file.") := by
  simp [script, scriptHead, thrown, Event.raises, Library.refusing]

theorem main_first_fails {V : Type} (lib : String → Library V) (e : Exn)
    (h : thrown (lib "parabola") (script (lib "parabola") "parabola") = some e) :
    invoked (main lib).2.trace = ["parabola"]
      ∧ ∀ what, e = .std what →
          (main lib).1 = .returned 1 ∧ (main lib).2.trace.getLast? = some (.cerr what) := by
  rw [main, main_body_first lib e h]
  cases e with
  | std m =>
    refine ⟨?_, ?_⟩
    · simp [invoked_append, invoked_cons_cout, invoked_ran_script]
      simp [invoked]
    · intro what hw
      cases hw
      exact ⟨rfl, List.getLast?_eq_some_iff.2 ⟨_, rfl⟩⟩
  | other =>
    refine ⟨?_, ?_⟩
    · simp [invoked_append, invoked_cons_cout, invoked_ran_script]
    · intro what hw; cases hw

theorem main_second_fails {V : Type} (lib : String → Library V) (e : Exn)
    (h₁ : thrown (lib "parabola") (script (lib "parabola") "parabola") = none)
    (h₂ : thrown (lib "sine") (script (lib "sine") "sine") = some e) :
    invoked (main lib).2.trace = ["parabola", "sine"]
      ∧ ∀ what, e = .std what →
          (main lib).1 = .returned 1 ∧ (main lib).2.trace.getLast? = some (.cerr what) := by
  rw [main, main_body_second lib e h₁ h₂]
  cases e with
  | std m =>
    refine ⟨?_, ?_⟩
    · simp [invoked_append, invoked_cons_cout, invoked_ran_script, invoked_script]
      simp [invoked]
    · intro what hw
      cases hw
      exact ⟨rfl, List.getLast?_eq_some_iff.2 ⟨_, rfl⟩⟩
  | other =>
    refine ⟨?_, ?_⟩
    · simp [invoked_append, invoked_cons_cout, invoked_ran_script, invoked_script]
    · intro what hw; cases hw

theorem main_third_fails {V : Type} (lib : String → Library V) (e : Exn)
    (h₁ : thrown (lib "parabola") (script (lib "parabola") "parabola") = none)
    (h₂ : thrown (lib "sine") (script (lib "sine") "sine") = none)
    (h₃ : thrown (lib "increasing_sine") (script (lib "increasing_sine") "increasing_sine")
      = some e) :
    invoked (main lib).2.trace = ["parabola", "sine", "increasing_sine"]
      ∧ ∀ what, e = .std what →
          (main lib).1 = .returned 1 ∧ (main lib).2.trace.getLast? = some (.cerr what) := by
  rw [main, main_body_third lib e h₁ h₂ h₃]
  cases e with
  | std m =>
    refine ⟨?_, ?_⟩
    · simp [invoked_append, invoked_cons_cout, invoked_ran_script, invoked_script]
      simp [invoked]
    · intro what hw
      cases hw
      exact ⟨rfl, List.getLast?_eq_some_iff.2 ⟨_, rfl⟩⟩
  | other =>
    refine ⟨?_, ?_⟩
    · simp [invoked_append, invoked_cons_cout, invoked_ran_script, invoked_script]
    · intro what hw; cases hw

theorem main_status_of_failure {V : Type} (lib : String → Library V) (e : Exn)
    (h : (main.body lib World.init).1 = .error e) : (main lib).1 ≠ .returned 0 := by
  rw [main]
  rcases hb : main.body lib World.init with ⟨r, w⟩
  rw [hb] at h
  simp only at h
  subst h
  cases e <;> simp

/-- C1, refuted as stated: when the data file of the first series cannot be
opened and every other call of the library would return, the run of
`parabola` fails and `main` ends having invoked `RunSeries` for `parabola`
only: neither `sine` nor `increasing_sine` is run. -/
theorem failed_parabola_blocks_later_series :
    (RunSeries (V := Nat) (Library.parabolaMissing "parabola") "parabola" World.init).1
        = .error (.std "Cannot open data file.")
      ∧ RunSeries.returns (V := Nat) (Library.parabolaMissing "sine") "sine" World.init
      ∧ RunSeries.returns (V := Nat) (Library.parabolaMissing "increasing_sine")
          "increasing_sine" World.init
      ∧ invoked (main (V := Nat) Library.parabolaMissing).2.trace = ["parabola"] := by
  have hp : thrown (V := Nat) (Library.parabolaMissing "parabola")
      (script (Library.parabolaMissing "parabola") "parabola")
      = some (.std "Cannot open data file.") := by
    simp only [Library.parabolaMissing, if_true]
    exact thrown_refusing _
  have hs : Library.parabolaMissing (V := Nat) "sine" = Library.quiet := by
    simp [Library.parabolaMissing]
  have hi : Library.parabolaMissing (V := Nat) "increasing_sine" = Library.quiet := by
    simp [Library.parabolaMissing]
  refine ⟨?_, ?_, ?_, (main_first_fails _ _ hp).1⟩
  · rw [result_eq, outcome, hp]
  · rw [hs]; exact (returns_iff _ _ _).2 (thrown_none_of_quiet _ _ (fun _ => rfl))
  · rw [hi]; exact (returns_iff _ _ _).2 (thrown_none_of_quiet _ _ (fun _ => rfl))

/-- C1, amended: when the run of a series fails, `main` invokes `RunSeries`
for no later series: the series invoked are those up to and including the one
that failed.  When the failure is an exception derived from `std::exception`,
`main` writes its message to the error stream as its last action and returns
1.  The worlds `w₁`, `w₂`, `w₃` are those the runs are observed in; any will
do. -/
theorem failure_ends_main {V : Type} (lib : String → Library V) (w₁ w₂ w₃ : World V)
    (e : Exn) :
    ((RunSeries (lib "parabola") "parabola" w₁).1 = .error e →
        invoked (main lib).2.trace = ["parabola"]
          ∧ ∀ what, e = .std what →
              (main lib).1 = .returned 1 ∧ (main lib).2.trace.getLast? = some (.cerr what))
      ∧ (RunSeries.returns (lib "parabola") "parabola" w₁ →
          (RunSeries (lib "sine") "sine" w₂).1 = .error e →
          invoked (main lib).2.trace = ["parabola", "sine"]
            ∧ ∀ what, e = .std what →
                (main lib).1 = .returned 1 ∧ (main lib).2.trace.getLast? = some (.cerr what))
      ∧ (RunSeries.returns (lib "parabola") "parabola" w₁ →
          RunSeries.returns (lib "sine") "sine" w₂ →
          (RunSeries (lib "increasing_sine") "increasing_sine" w₃).1 = .error e →
          invoked (main lib).2.trace = ["parabola", "sine", "increasing_sine"]
            ∧ ∀ what, e = .std what →
                (main lib).1 = .returned 1
                  ∧ (main lib).2.trace.getLast? = some (.cerr what)) := by
  refine ⟨fun h => ?_, fun h₁ h => ?_, fun h₁ h₂ h => ?_⟩
  · exact main_first_fails lib e (thrown_of_error _ _ _ _ h)
  · exact main_second_fails lib e ((returns_iff _ _ _).1 h₁) (thrown_of_error _ _ _ _ h)
  · exact main_third_fails lib e ((returns_iff _ _ _).1 h₁) ((returns_iff _ _ _).1 h₂)
      (thrown_of_error _ _ _ _ h)

theorem failure_ends_main_witness :
    invoked (main (V := Nat) (fun _ => Library.refusing)).2.trace = ["parabola"]
      ∧ ∀ what, Exn.std "Cannot open data file." = .std what →
          (main (V := Nat) (fun _ => Library.refusing)).1 = .returned 1
            ∧ (main (V := Nat) (fun _ => Library.refusing)).2.trace.getLast?
                = some (.cerr what) :=
  (failure_ends_main (V := Nat) (fun _ => Library.refusing) World.init World.init World.init
    (.std "Cannot open data file.")).1
    (by rw [result_eq, outcome, thrown_refusing])

/-- C7: when the three runs return, the events of `main` that mark a run are,
in this order: `RunSeries` entered for `parabola`, its data set constructed
from `../data/parabola.csv` with separator `,` and no header row, `RunSeries`
left; then the same for `sine`, then for `increasing_sine`.  So `RunSeries` is
invoked three times, once per series, each invocation after the previous one
has returned.  The worlds `w₁`, `w₂`, `w₃` are those the runs are observed
in; any will do. -/
theorem main_runs_three_series_in_order {V : Type} (lib : String → Library V)
    (w₁ w₂ w₃ : World V)
    (h₁ : RunSeries.returns (lib "parabola") "parabola" w₁)
    (h₂ : RunSeries.returns (lib "sine") "sine" w₂)
    (h₃ : RunSeries.returns (lib "increasing_sine") "increasing_sine" w₃) :
    (main lib).2.trace.filter Event.marksRun
      = [.enter "parabola", .call (.DataSet "../data/parabola.csv" ',' false),
          .leave "parabola",
         .enter "sine", .call (.DataSet "../data/sine.csv" ',' false),
          .leave "sine",
         .enter "increasing_sine", .call (.DataSet "../data/increasing_sine.csv" ',' false),
          .leave "increasing_sine"] := by
  rw [main, main_body_all lib ((returns_iff _ _ _).1 h₁) ((returns_iff _ _ _).1 h₂)
    ((returns_iff _ _ _).1 h₃)]
  simp only [List.filter_cons, List.filter_append, marks_script]
  simp [Event.marksRun]

theorem main_runs_three_series_in_order_witness :
    (main (V := Nat) (fun _ => Library.quiet)).2.trace.filter Event.marksRun
      = [.enter "parabola", .call (.DataSet "../data/parabola.csv" ',' false),
          .leave "parabola",
         .enter "sine", .call (.DataSet "../data/sine.csv" ',' false),
          .leave "sine",
         .enter "increasing_sine", .call (.DataSet "../data/increasing_sine.csv" ',' false),
          .leave "increasing_sine"] :=
  main_runs_three_series_in_order (fun _ => Library.quiet) World.init World.init World.init
    ((returns_iff _ _ _).2 (thrown_none_of_quiet _ _ (fun _ => rfl)))
    ((returns_iff _ _ _).2 (thrown_none_of_quiet _ _ (fun _ => rfl)))
    ((returns_iff _ _ _).2 (thrown_none_of_quiet _ _ (fun _ => rfl)))

/-- C10: `main` returns 0 exactly when the three runs return; and when a
run raises an exception derived from `std::exception` (the runs before it
having returned), `main` returns 1, after writing the message of the
exception to the error stream as its last action.  The worlds `w₁`, `w₂`,
`w₃` are those the runs are observed in; any will do. -/
theorem main_exit_status {V : Type} (lib : String → Library V) (w₁ w₂ w₃ : World V) :
    ((main lib).1 = .returned 0 ↔
        RunSeries.returns (lib "parabola") "parabola" w₁
          ∧ RunSeries.returns (lib "sine") "sine" w₂
          ∧ RunSeries.returns (lib "increasing_sine") "increasing_sine" w₃)
      ∧ (∀ what, (RunSeries (lib "parabola") "parabola" w₁).1 = .error (.std what) →
          (main lib).1 = .returned 1 ∧ (main lib).2.trace.getLast? = some (.cerr what))
      ∧ (∀ what, RunSeries.returns (lib "parabola") "parabola" w₁ →
          (RunSeries (lib "sine") "sine" w₂).1 = .error (.std what) →
          (main lib).1 = .returned 1 ∧ (main lib).2.trace.getLast? = some (.cerr what))
      ∧ (∀ what, RunSeries.returns (lib "parabola") "parabola" w₁ →
          RunSeries.returns (lib "sine") "sine" w₂ →
          (RunSeries (lib "increasing_sine") "increasing_sine" w₃).1 = .error (.std what) →
          (main lib).1 = .returned 1 ∧ (main lib).2.trace.getLast? = some (.cerr what)) := by
  refine ⟨?_, fun what h => ?_, fun what h₁ h => ?_, fun what h₁ h₂ h => ?_⟩
  · simp only [returns_iff]
    cases hp : thrown (lib "parabola") (script (lib "parabola") "parabola") with
    | some e =>
      have := main_status_of_failure lib e (by rw [main_body_first lib e hp])
      simp [this]
    | none =>
      cases hs : thrown (lib "sine") (script (lib "sine") "sine") with
      | some e =>
        have := main_status_of_failure lib e (by rw [main_body_second lib e hp hs])
        simp [this]
      | none =>
        cases hi : thrown (lib "increasing_sine")
            (script (lib "increasing_sine") "increasing_sine") with
        | some e =>
          have := main_status_of_failure lib e (by rw [main_body_third lib e hp hs hi])
          simp [this]
        | none =>
          rw [main, main_body_all lib hp hs hi]
          simp
  · exact (main_first_fails lib _ (thrown_of_error _ _ _ _ h)).2 what rfl
  · exact (main_second_fails lib _ ((returns_iff _ _ _).1 h₁)
      (thrown_of_error _ _ _ _ h)).2 what rfl
  · exact (main_third_fails lib _ ((returns_iff _ _ _).1 h₁) ((returns_iff _ _ _).1 h₂)
      (thrown_of_error _ _ _ _ h)).2 what rfl

theorem main_exit_status_witness :
    (main (V := Nat) Library.parabolaMissing).1 = .returned 1
      ∧ (main (V := Nat) Library.parabolaMissing).2.trace.getLast?
          = some (.cerr "Cannot open data file.") :=
  (main_exit_status (V := Nat) Library.parabolaMissing World.init World.init World.init).2.1
    "Cannot open data file."
    (by
      rw [result_eq, outcome]
      simp only [Library.parabolaMissing, if_true]
      rw [thrown_refusing])

/-! ## Decimal representation and file names -/

theorem digitChar_isDigit : ∀ n < 10, (Nat.digitChar n).isDigit = true := by decide

theorem digitChar_value : ∀ n < 10, (Nat.digitChar n).toNat - 48 = n := by decide

theorem decimalValue_concat (p : List Char) (c : Char) :
    decimalValue (p ++ [c]) = 10 * decimalValue p + (c.toNat - 48) := by
  simp [decimalValue, List.foldl_append]

theorem toDigitsCore_spec (fuel : Nat) : ∀ (n : Nat) (ds : List Char),
    ∃ p, Nat.toDigitsCore 10 fuel n ds = p ++ ds ∧ (∀ c ∈ p, c.isDigit = true)
      ∧ (n < fuel → p ≠ [] ∧ decimalValue p = n) := by
  induction fuel with
  | zero => intro n ds; exact ⟨[], by simp [Nat.toDigitsCore]⟩
  | succ fuel ih =>
    intro n ds
    have hd : n % 10 < 10 := Nat.mod_lt _ (by norm_num)
    simp only [Nat.toDigitsCore]
    by_cases h0 : n / 10 = 0
    · refine ⟨[Nat.digitChar (n % 10)], by simp [h0], ?_, ?_⟩
      · simpa using digitChar_isDigit _ hd
      · intro _
        refine ⟨by simp, ?_⟩
        have : decimalValue [Nat.digitChar (n % 10)] = (Nat.digitChar (n % 10)).toNat - 48 := by
          simp [decimalValue]
        rw [this, digitChar_value _ hd]
        omega
    · obtain ⟨p, hp, hall, hval⟩ := ih (n / 10) (Nat.digitChar (n % 10) :: ds)
      refine ⟨p ++ [Nat.digitChar (n % 10)], by simp [h0, hp], ?_, ?_⟩
      · intro c hc
        rcases List.mem_append.1 hc with hc | hc
        · exact hall c hc
        · simp at hc; rw [hc]; exact digitChar_isDigit _ hd
      · intro hn
        refine ⟨by simp, ?_⟩
        have hlt : n / 10 < fuel := by omega
        rw [decimalValue_concat, (hval hlt).2, digitChar_value _ hd]
        omega

theorem toDigits_isDigit (n : Nat) : ∀ c ∈ Nat.toDigits 10 n, c.isDigit = true := by
  obtain ⟨p, hp, hall, _⟩ := toDigitsCore_spec (n + 1) n []
  rw [Nat.toDigits, hp, List.append_nil]
  exact hall

theorem decimalValue_toDigits (n : Nat) : decimalValue (Nat.toDigits 10 n) = n := by
  obtain ⟨p, hp, _, hval⟩ := toDigitsCore_spec (n + 1) n []
  rw [Nat.toDigits, hp, List.append_nil]
  exact (hval (Nat.lt_succ_self n)).2

theorem toDigits_injective (i j : Nat) (h : Nat.toDigits 10 i = Nat.toDigits 10 j) : i = j := by
  rw [← decimalValue_toDigits i, ← decimalValue_toDigits j, h]

/-- Digits followed by something that starts with a character that is not a
digit can be read in one way only. -/
theorem digits_append_inj (d₁ d₂ k₁ k₂ : List Char)
    (h₁ : ∀ c ∈ d₁, c.isDigit = true) (h₂ : ∀ c ∈ d₂, c.isDigit = true)
    (hk₁ : ∃ c r, k₁ = c :: r ∧ c.isDigit = false)
    (hk₂ : ∃ c r, k₂ = c :: r ∧ c.isDigit = false)
    (h : d₁ ++ k₁ = d₂ ++ k₂) : d₁ = d₂ ∧ k₁ = k₂ := by
  induction d₁ generalizing d₂ with
  | nil =>
    cases d₂ with
    | nil => exact ⟨rfl, by simpa using h⟩
    | cons b d₂ =>
      obtain ⟨c, r, rfl, hc⟩ := hk₁
      simp only [List.nil_append, List.cons_append, List.cons.injEq] at h
      have := h₂ b (by simp)
      rw [← h.1, hc] at this
      cases this
  | cons a d₁ ih =>
    cases d₂ with
    | nil =>
      obtain ⟨c, r, rfl, hc⟩ := hk₂
      simp only [List.nil_append, List.cons_append, List.cons.injEq] at h
      have := h₁ a (by simp)
      rw [h.1, hc] at this
      cases this
    | cons b d₂ =>
      simp only [List.cons_append, List.cons.injEq] at h
      obtain ⟨hd, hk⟩ := ih d₂ (fun c hc => h₁ c (by simp [hc]))
        (fun c hc => h₂ c (by simp [hc])) h.2
      exact ⟨by rw [h.1, hd], hk⟩

theorem LinearAnalysis_inj (i j : Nat) (K₁ K₂ : String)
    (h₁ : K₁.data.head?.map Char.isDigit = some false)
    (h₂ : K₂.data.head?.map Char.isDigit = some false)
    (h : "LinearAnalysis_" ++ Nat.repr i ++ K₁ = "LinearAnalysis_" ++ Nat.repr j ++ K₂) :
    i = j ∧ K₁ = K₂ := by
  have hd := congrArg String.data h
  simp only [String.data_append, List.append_assoc] at hd
  have hd := List.append_cancel_left hd
  have hk : ∀ K : String, K.data.head?.map Char.isDigit = some false →
      ∃ c r, K.data = c :: r ∧ c.isDigit = false := by
    intro K hK
    cases hKd : K.data with
    | nil => simp [hKd] at hK
    | cons c r => exact ⟨c, r, rfl, by simpa [hKd] using hK⟩
  obtain ⟨hD, hK⟩ := digits_append_inj _ _ _ _ (toDigits_isDigit i) (toDigits_isDigit j)
    (hk K₁ h₁) (hk K₂ h₂) hd
  exact ⟨toDigits_injective i j hD, String.ext hK⟩

theorem LinearAnalysis_head (i : Nat) (K : String) :
    ("LinearAnalysis_" ++ Nat.repr i ++ K).data.head? = some 'L' := rfl

theorem file_name_injective (a b : Artifact) (h : a.file_name = b.file_name) : a = b := by
  cases a <;> cases b <;> first
    | rfl
    | exact absurd h (by decide)
    | exact absurd (congrArg (fun s => s.data.head?) h) (by
        simp only [Artifact.file_name, LinearAnalysis_head]; decide)
    | (obtain ⟨hi, hk⟩ := LinearAnalysis_inj _ _ _ _ (by decide) (by decide) h
       first
        | (subst hi; rfl)
        | exact absurd hk (by decide))

theorem path_injective (n : String) (a b : Artifact) (h : a.path n = b.path n) : a = b := by
  have hd := congrArg String.data h
  simp only [Artifact.path, String.data_append] at hd
  exact file_name_injective a b (String.ext (List.append_cancel_left hd))

/-! ## The files of a run -/

theorem script_eq_OutputDirectory {V : Type} (lib : Library V) (n : String) :
    script lib n = scriptHead lib n
      ++ loopScript (OutputDirectory n) 0 lib.perform_linear_regression_analysis
      ++ scriptTail lib n := rfl

theorem path_LinearAnalysisData (n : String) (i : Nat) :
    OutputDirectory n ++ "LinearAnalysis_" ++ Nat.repr i ++ "Data.dat"
      = Artifact.path n (.LinearAnalysisData i) := by
  simp [Artifact.path, Artifact.file_name, String.append_assoc]

theorem path_LinearAnalysisTargets (n : String) (i : Nat) :
    OutputDirectory n ++ "LinearAnalysis_" ++ Nat.repr i ++ "Targets.dat"
      = Artifact.path n (.LinearAnalysisTargets i) := by
  simp [Artifact.path, Artifact.file_name, String.append_assoc]

theorem path_LinearAnalysisOutputs (n : String) (i : Nat) :
    OutputDirectory n ++ "LinearAnalysis_" ++ Nat.repr i ++ "Outputs.dat"
      = Artifact.path n (.LinearAnalysisOutputs i) := by
  simp [Artifact.path, Artifact.file_name, String.append_assoc]

theorem written_loopScript {V : Type} (n : String) (rs : List (LinearRegressionAnalysis V))
    (i : Nat) :
    ((loopScript (OutputDirectory n) i rs).flatMap Event.written).map Prod.fst
      = (loopArtifacts i rs.length).map (Artifact.path n) := by
  induction rs generalizing i with
  | nil => simp [loopScript, loopArtifacts]
  | cons r rest ih =>
    simp [loopScript, loopArtifacts, Event.written, Call.written, List.flatMap_cons, ih,
      path_LinearAnalysisData, path_LinearAnalysisTargets, path_LinearAnalysisOutputs]

theorem mem_written_loopScript {V : Type} (n : String) (rs : List (LinearRegressionAnalysis V))
    (i j : Nat) (r : LinearRegressionAnalysis V) (h : rs[j]? = some r) :
    (Artifact.path n (.LinearAnalysisData (i + j)),
        Saved.Vector [r.correlation, r.intercept, r.slope])
          ∈ (loopScript (OutputDirectory n) i rs).flatMap Event.written
      ∧ (Artifact.path n (.LinearAnalysisTargets (i + j)), Saved.Vector r.targets)
          ∈ (loopScript (OutputDirectory n) i rs).flatMap Event.written
      ∧ (Artifact.path n (.LinearAnalysisOutputs (i + j)), Saved.Vector r.outputs)
          ∈ (loopScript (OutputDirectory n) i rs).flatMap Event.written := by
  induction rs generalizing i j with
  | nil => simp at h
  | cons r' rest ih =>
    cases j with
    | zero =>
      simp only [List.getElem?_cons_zero, Option.some.injEq] at h
      subst h
      simp [loopScript, Event.written, Call.written, List.flatMap_cons,
        path_LinearAnalysisData, path_LinearAnalysisTargets, path_LinearAnalysisOutputs]
    | succ j =>
      simp only [List.getElem?_cons_succ] at h
      have := ih (i + 1) j h
      have hij : i + 1 + j = i + (j + 1) := by omega
      rw [hij] at this
      simp only [loopScript, List.flatMap_cons, List.mem_append]
      exact ⟨Or.inr (Or.inr (Or.inr this.1)), Or.inr (Or.inr (Or.inr this.2.1)),
        Or.inr (Or.inr (Or.inr this.2.2))⟩

theorem written_script_paths {V : Type} (lib : Library V) (n : String) :
    ((script lib n).flatMap Event.written).map Prod.fst
      = (artifacts lib.perform_linear_regression_analysis.length).map (Artifact.path n) := by
  rw [script_eq_OutputDirectory]
  simp only [List.flatMap_append, List.map_append, written_loopScript, artifacts]
  simp [scriptHead, scriptTail, Event.written, Call.written, List.flatMap_cons, Artifact.path,
    Artifact.file_name, OutputDirectory]

theorem wrote_isPrefix {V : Type} (lib : Library V) (s : List (Event V)) :
    wrote lib s <+: s.flatMap Event.written := by
  induction s with
  | nil => simp [wrote]
  | cons e es ih =>
    simp only [wrote, List.flatMap_cons]
    cases e.raises lib with
    | some x => exact List.nil_prefix
    | none => exact (List.prefix_append_right_inj _).2 ih

theorem mem_loopArtifacts (k i : Nat) (a : Artifact) (h : a ∈ loopArtifacts i k) :
    ∃ j, i ≤ j ∧ (a = .LinearAnalysisData j ∨ a = .LinearAnalysisTargets j
      ∨ a = .LinearAnalysisOutputs j) := by
  induction k generalizing i with
  | zero => simp [loopArtifacts] at h
  | succ k ih =>
    simp only [loopArtifacts, List.mem_cons] at h
    rcases h with h | h | h | h
    · exact ⟨i, le_refl _, Or.inl h⟩
    · exact ⟨i, le_refl _, Or.inr (Or.inl h)⟩
    · exact ⟨i, le_refl _, Or.inr (Or.inr h)⟩
    · obtain ⟨j, hj, ha⟩ := ih _ h
      exact ⟨j, by omega, ha⟩

theorem nodup_loopArtifacts (k i : Nat) : (loopArtifacts i k).Nodup := by
  induction k generalizing i with
  | zero => simp [loopArtifacts]
  | succ k ih =>
    have hn : ∀ a, (a = Artifact.LinearAnalysisData i ∨ a = .LinearAnalysisTargets i
        ∨ a = .LinearAnalysisOutputs i) → a ∉ loopArtifacts (i + 1) k := by
      intro a ha hm
      obtain ⟨j, hj, hj'⟩ := mem_loopArtifacts _ _ _ hm
      rcases ha with rfl | rfl | rfl <;> rcases hj' with h | h | h <;> cases h <;> omega
    simp only [loopArtifacts, List.nodup_cons, List.mem_cons, not_or]
    exact ⟨⟨by simp, by simp, hn _ (Or.inl rfl)⟩, ⟨by simp, hn _ (Or.inr (Or.inl rfl))⟩,
      hn _ (Or.inr (Or.inr rfl)), ih _⟩

theorem nodup_artifacts (k : Nat) : (artifacts k).Nodup := by
  have hl : ∀ a ∈ loopArtifacts 0 k, ∃ j, (a = .LinearAnalysisData j
      ∨ a = .LinearAnalysisTargets j ∨ a = .LinearAnalysisOutputs j) := by
    intro a ha
    obtain ⟨j, _, h⟩ := mem_loopArtifacts _ _ _ ha
    exact ⟨j, h⟩
  rw [artifacts, List.nodup_append, List.nodup_append]
  refine ⟨⟨by decide, nodup_loopArtifacts _ _, ?_⟩, by decide, ?_⟩
  · intro a ha hb
    obtain ⟨j, h⟩ := hl a hb
    rcases h with rfl | rfl | rfl <;> simp at ha
  · intro a ha hb
    rcases List.mem_append.1 ha with ha | ha
    · simp only [List.mem_cons, List.mem_singleton, List.not_mem_nil, or_false] at ha hb
      rcases ha with rfl | rfl | rfl | rfl | rfl <;> simp at hb
    · obtain ⟨j, h⟩ := hl a ha
      rcases h with rfl | rfl | rfl <;> simp at hb

theorem nodup_paths (n : String) (k : Nat) : ((artifacts k).map (Artifact.path n)).Nodup :=
  (nodup_artifacts k).map (fun a b h => path_injective n a b h)

theorem files_of_returns {V : Type} (lib : Library V) (n : String) (w : World V)
    (h : RunSeries.returns lib n w) :
    RunSeries.files lib n w = (script lib n).flatMap Event.written := by
  rw [files_eq, wrote_of_thrown_none _ _ ((returns_iff _ _ _).1 h)]

theorem content_unique {α β : Type} (l : List (α × β)) (a : α) (b b' : β)
    (hn : (l.map Prod.fst).Nodup) (h : (a, b) ∈ l) (h' : (a, b') ∈ l) : b = b' := by
  induction l with
  | nil => simp at h
  | cons x l ih =>
    simp only [List.map_cons, List.nodup_cons] at hn
    rcases List.mem_cons.1 h with h | h <;> rcases List.mem_cons.1 h' with h' | h'
    · rw [← h] at h'
      exact (Prod.mk.inj h').2.symm
    · have hx : x.1 = a := by rw [← h]
      exact absurd (hx ▸ List.mem_map_of_mem Prod.fst h') hn.1
    · have hx : x.1 = a := by rw [← h']
      exact absurd (hx ▸ List.mem_map_of_mem Prod.fst h) hn.1
    · exact ih hn.2 h h'

theorem nodup_files {V : Type} (lib : Library V) (n : String) (w : World V) :
    ((RunSeries.files lib n w).map Prod.fst).Nodup := by
  rw [files_eq]
  refine List.Nodup.sublist ((wrote_isPrefix lib _).map Prod.fst).sublist ?_
  rw [written_script_paths]
  exact nodup_paths _ _

/-- C6: for the record `r` at position `i` of the vector returned by
`perform_linear_regression_analysis`.  In every run of `RunSeries` no path is
written twice, and if the file `LinearAnalysis_<i>Data.dat` is written it
holds the vector of the three values `r.correlation`, `r.intercept`,
`r.slope`, the file `LinearAnalysis_<i>Targets.dat` holds `r.targets` and the
file `LinearAnalysis_<i>Outputs.dat` holds `r.outputs`.  In a run that returns
the three files of the record are written, each exactly once. -/
theorem linear_analysis_records_written {V : Type} (lib : Library V) (NameOfSeries : String)
    (w : World V) (i : Nat) (r : LinearRegressionAnalysis V)
    (hr : lib.perform_linear_regression_analysis[i]? = some r) :
    ((RunSeries.files lib NameOfSeries w).map Prod.fst).Nodup
      ∧ (∀ content,
          (Artifact.path NameOfSeries (.LinearAnalysisData i), content)
              ∈ RunSeries.files lib NameOfSeries w →
            content = Saved.Vector [r.correlation, r.intercept, r.slope])
      ∧ (∀ content,
          (Artifact.path NameOfSeries (.LinearAnalysisTargets i), content)
              ∈ RunSeries.files lib NameOfSeries w →
            content = Saved.Vector r.targets)
      ∧ (∀ content,
          (Artifact.path NameOfSeries (.LinearAnalysisOutputs i), content)
              ∈ RunSeries.files lib NameOfSeries w →
            content = Saved.Vector r.outputs)
      ∧ (RunSeries.returns lib NameOfSeries w →
          ((Artifact.path NameOfSeries (.LinearAnalysisData i),
              Saved.Vector [r.correlation, r.intercept, r.slope])
                ∈ RunSeries.files lib NameOfSeries w
            ∧ (Artifact.path NameOfSeries (.LinearAnalysisTargets i), Saved.Vector r.targets)
                ∈ RunSeries.files lib NameOfSeries w
            ∧ (Artifact.path NameOfSeries (.LinearAnalysisOutputs i), Saved.Vector r.outputs)
                ∈ RunSeries.files lib NameOfSeries w)
          ∧ ((RunSeries.files lib NameOfSeries w).map Prod.fst).count
              (Artifact.path NameOfSeries (.LinearAnalysisData i)) = 1
          ∧ ((RunSeries.files lib NameOfSeries w).map Prod.fst).count
              (Artifact.path NameOfSeries (.LinearAnalysisTargets i)) = 1
          ∧ ((RunSeries.files lib NameOfSeries w).map Prod.fst).count
              (Artifact.path NameOfSeries (.LinearAnalysisOutputs i)) = 1) := by
  have hm := mem_written_loopScript NameOfSeries lib.perform_linear_regression_analysis 0 i r hr
  rw [Nat.zero_add] at hm
  have hfull : ∀ f, f ∈ (loopScript (OutputDirectory NameOfSeries) 0
      lib.perform_linear_regression_analysis).flatMap Event.written →
      f ∈ (script lib NameOfSeries).flatMap Event.written := by
    intro f hfm
    rw [script_eq_OutputDirectory]
    simp only [List.flatMap_append, List.mem_append]
    exact Or.inl (Or.inr hfm)
  have hsub : ∀ f, f ∈ RunSeries.files lib NameOfSeries w →
      f ∈ (script lib NameOfSeries).flatMap Event.written := by
    intro f hf
    rw [files_eq] at hf
    exact (wrote_isPrefix lib _).subset hf
  have hnf : (((script lib NameOfSeries).flatMap Event.written).map Prod.fst).Nodup := by
    rw [written_script_paths]
    exact nodup_paths _ _
  have hnd := nodup_files lib NameOfSeries w
  refine ⟨hnd, ?_, ?_, ?_, ?_⟩
  · intro content hc
    exact content_unique _ _ _ _ hnf (hsub _ hc) (hfull _ hm.1)
  · intro content hc
    exact content_unique _ _ _ _ hnf (hsub _ hc) (hfull _ hm.2.1)
  · intro content hc
    exact content_unique _ _ _ _ hnf (hsub _ hc) (hfull _ hm.2.2)
  · intro h
    have hf := files_of_returns lib NameOfSeries w h
    have h₁ := hfull _ hm.1
    have h₂ := hfull _ hm.2.1
    have h₃ := hfull _ hm.2.2
    rw [← hf] at h₁ h₂ h₃
    exact ⟨⟨h₁, h₂, h₃⟩,
      List.count_eq_one_of_mem hnd (List.mem_map_of_mem Prod.fst h₁),
      List.count_eq_one_of_mem hnd (List.mem_map_of_mem Prod.fst h₂),
      List.count_eq_one_of_mem hnd (List.mem_map_of_mem Prod.fst h₃)⟩

theorem linear_analysis_records_written_witness :
    ((Artifact.path "sine" (.LinearAnalysisData 1), Saved.Vector [6, 7, 8])
          ∈ RunSeries.files Library.twoRecords "sine" World.init
        ∧ (Artifact.path "sine" (.LinearAnalysisTargets 1), Saved.Vector [9])
          ∈ RunSeries.files Library.twoRecords "sine" World.init
        ∧ (Artifact.path "sine" (.LinearAnalysisOutputs 1), Saved.Vector [10])
          ∈ RunSeries.files Library.twoRecords "sine" World.init)
      ∧ ((RunSeries.files Library.twoRecords "sine" World.init).map Prod.fst).count
          (Artifact.path "sine" (.LinearAnalysisData 1)) = 1
      ∧ ((RunSeries.files Library.twoRecords "sine" World.init).map Prod.fst).count
          (Artifact.path "sine" (.LinearAnalysisTargets 1)) = 1
      ∧ ((RunSeries.files Library.twoRecords "sine" World.init).map Prod.fst).count
          (Artifact.path "sine" (.LinearAnalysisOutputs 1)) = 1 :=
  (linear_analysis_records_written Library.twoRecords "sine" World.init 1
    ⟨6, 7, 8, [9], [10]⟩ rfl).2.2.2.2
    ((returns_iff _ _ _).2 (thrown_none_of_quiet _ _ (fun _ => rfl)))

/-! ## The calls of a run are pairwise different -/

theorem keys_loopScript {V : Type} (n : String) (rs : List (LinearRegressionAnalysis V))
    (i : Nat) :
    ((loopScript (OutputDirectory n) i rs).filterMap Event.callOf).map Call.key
      = ((loopArtifacts i rs.length).map (Artifact.path n)).map (fun p => (36, p)) := by
  induction rs generalizing i with
  | nil => simp [loopScript, loopArtifacts]
  | cons r rest ih =>
    simp [loopScript, loopArtifacts, Event.callOf, Call.key, ih,
      path_LinearAnalysisData, path_LinearAnalysisTargets, path_LinearAnalysisOutputs]

theorem keys_script {V : Type} (lib : Library V) (n : String) :
    ((script lib n).filterMap Event.callOf).map Call.key
      = (List.range 36).map (fun i => (i, ""))
        ++ ((artifacts lib.perform_linear_regression_analysis.length).map
            (Artifact.path n)).map (fun p => (36, p)) := by
  rw [script_eq_OutputDirectory]
  simp only [List.filterMap_append, List.map_append, keys_loopScript, artifacts]
  simp [scriptHead, scriptTail, Event.callOf, Call.key, Artifact.path, Artifact.file_name,
    OutputDirectory, List.range_succ]

/-- The library calls of a run are pairwise different, so that the answers of
a `Library`, which are given per call, can make any one of them the first to
throw. -/
theorem calls_nodup {V : Type} (lib : Library V) (n : String) :
    ((script lib n).filterMap Event.callOf).Nodup := by
  refine List.Nodup.of_map Call.key ?_
  rw [keys_script, List.nodup_append]
  refine ⟨?_, ?_, ?_⟩
  · exact (List.nodup_range 36).map (fun a b h => (Prod.mk.inj h).1)
  · exact (nodup_paths _ _).map (fun a b h => (Prod.mk.inj h).2)
  · intro x hx hy
    obtain ⟨i, hi, rfl⟩ := List.mem_map.1 hx
    obtain ⟨p, _, hp⟩ := List.mem_map.1 hy
    have := (Prod.mk.inj hp).1
    simp at hi
    omega

/-! ## The stage calls of a run -/

theorem stage_recordSaves {V : Type} (n : String) (rs : List (LinearRegressionAnalysis V))
    (i : Nat) :
    ((rs.enumFrom i).flatMap (fun ir => recordSaves n ir.1 ir.2)).filterMap Call.stage
      = List.replicate (3 * rs.length) .evaluation_export := by
  induction rs generalizing i with
  | nil => simp
  | cons r rest ih =>
    have h : 3 * (rest.length + 1) = 3 * rest.length + 1 + 1 + 1 := by ring
    rw [List.enumFrom_cons, List.flatMap_cons, List.filterMap_append, ih, List.length_cons, h]
    simp [recordSaves, Call.stage, List.replicate_succ]

theorem stage_pipelineCalls {V : Type} (lib : Library V) (n : String) :
    (pipelineCalls lib n).filterMap Call.stage
      = pipeline lib.perform_linear_regression_analysis.length := by
  have h : 14 + 3 * lib.perform_linear_regression_analysis.length
      = 11 + (3 * lib.perform_linear_regression_analysis.length + 3) := by ring
  simp only [pipelineCalls, pipeline, List.filterMap_append, List.enum, stage_recordSaves, h,
    List.replicate_add]
  simp [Call.stage, List.replicate_succ]

theorem stages_eq_stageCalls {V : Type} (lib : Library V) (n : String) (w : World V) :
    RunSeries.stages lib n w = (RunSeries.stageCalls lib n w).filterMap Call.stage := by
  rw [RunSeries.stages, RunSeries.stageCalls, List.filterMap_filterMap]
  congr 1
  funext e
  cases e with
  | call c =>
    simp only [Event.stage, Event.stageCall, Option.bind]
    cases h : c.stage <;> simp [h]
  | _ => rfl

/-- C3, amended: the calls of a run of `RunSeries` that do the work of a stage
are an initial part of `pipelineCalls`: `transform_time_series`,
`impute_missing_values_mean`, `split_instances_sequential`,
`scale_inputs_minimum_maximum`, `scale_targets_minimum_maximum`,
`perform_training`, the construction of the testing analysis and its five
computations, and then the `8 + 3k` saves (`k` the number of linear-regression
records).  Their stages are transformation, imputation, partitioning, scaling
twice, training, and `14 + 3k` times evaluation and export.  A run that
returns makes exactly this sequence of calls, so each stage is entered once,
after the stages before it. -/
theorem stages_follow_pipeline {V : Type} (lib : Library V) (NameOfSeries : String)
    (w : World V) :
    RunSeries.stageCalls lib NameOfSeries w <+: pipelineCalls lib NameOfSeries
      ∧ (pipelineCalls lib NameOfSeries).filterMap Call.stage
        = pipeline lib.perform_linear_regression_analysis.length
      ∧ RunSeries.stages lib NameOfSeries w
        <+: pipeline lib.perform_linear_regression_analysis.length
      ∧ (RunSeries.returns lib NameOfSeries w →
          RunSeries.stageCalls lib NameOfSeries w = pipelineCalls lib NameOfSeries
            ∧ RunSeries.stages lib NameOfSeries w
              = pipeline lib.perform_linear_regression_analysis.length) := by
  have hloop : ∀ (rs : List (LinearRegressionAnalysis V)) (i : Nat),
      (loopScript (OutputDirectory NameOfSeries) i rs).filterMap Event.stageCall
        = (rs.enumFrom i).flatMap (fun ir => recordSaves NameOfSeries ir.1 ir.2) := by
    intro rs
    induction rs with
    | nil => intro i; simp [loopScript]
    | cons r rest ih =>
      intro i
      simp [loopScript, Event.stageCall, Call.stage, ih, recordSaves, List.flatMap_cons,
        path_LinearAnalysisData, path_LinearAnalysisTargets, path_LinearAnalysisOutputs]
  have hs : (script lib NameOfSeries).filterMap Event.stageCall
      = pipelineCalls lib NameOfSeries := by
    rw [script_eq_OutputDirectory]
    simp only [List.filterMap_append, hloop, pipelineCalls, List.enum]
    simp [scriptHead, scriptTail, Event.stageCall, Call.stage, Artifact.path,
      Artifact.file_name, OutputDirectory]
  have hc : RunSeries.stageCalls lib NameOfSeries w <+: pipelineCalls lib NameOfSeries := by
    rw [RunSeries.stageCalls, events_eq, ← hs]
    exact (ran_isPrefix _ _).filterMap _
  refine ⟨hc, stage_pipelineCalls lib NameOfSeries, ?_, ?_⟩
  · rw [stages_eq_stageCalls, ← stage_pipelineCalls lib NameOfSeries]
    exact hc.filterMap _
  · intro h
    have he : RunSeries.stageCalls lib NameOfSeries w = pipelineCalls lib NameOfSeries := by
      rw [RunSeries.stageCalls, events_eq, ran_of_thrown_none _ _ ((returns_iff _ _ _).1 h),
        hs]
    exact ⟨he, by rw [stages_eq_stageCalls, he, stage_pipelineCalls]⟩

theorem stages_follow_pipeline_witness :
    RunSeries.stageCalls Library.twoRecords "sine" World.init
        = pipelineCalls Library.twoRecords "sine"
      ∧ RunSeries.stages Library.twoRecords "sine" World.init = pipeline 2 :=
  (stages_follow_pipeline Library.twoRecords "sine" World.init).2.2.2
    ((returns_iff _ _ _).2 (thrown_none_of_quiet _ _ (fun _ => rfl)))

end TimeSeries
